/-
Formal verification development for the belly-buzz signal aggregation and
scoring engine: src/backend/etl/scoring.py, the mention normalization
boundary src/backend/shared/models/mention.py, and the ingestion batch loop
src/backend/etl/ingest.py.

Modeling conventions:
- Python floats are modeled as real numbers (ℝ); Python ints as ℤ.
- datetimes are modeled as integer POSIX seconds. Python `timedelta.days`
  floors toward negative infinity, which is `Int.fdiv (delta) 86400`.
- Python `round(x, n)` is modeled as round-to-nearest at n decimal digits
  (Mathlib `round`, half away rounding up). Python's half-to-even tie rule
  differs only on exact .5 * 10^(-n) ties, which no statement below
  exercises; all rounding facts used are monotonicity and the 1/2 error
  bound, which hold for either tie rule.
- `datetime.now()` is injected as an explicit `now : ℤ` parameter; the
  source calls it ambiently.
-/
import Mathlib

namespace BellyBuzz

/-- Modelled from the spec: the fixed enumeration of source kinds.  The
`SourceType` enum lives in a models/enums file that is not present under
src/; its members are exactly the keys used by scoring.py's
`SOURCE_CREDIBILITY` table and by `calculate_pro_score`. -/
inductive SourceType where
  | eater
  | toronto_life
  | blogto
  | reddit
  | instagram
  | manual
deriving DecidableEq, Repr

/-- Modelled from the spec: sentiment labels positive/negative/neutral/mixed
(the `SentimentLabel` enum file is not present under src/). -/
inductive SentimentLabel where
  | positive
  | negative
  | neutral
  | mixed
deriving DecidableEq, Repr

/-- `SocialMention` from src/backend/shared/models/mention.py (the same
shape appears in src/backend/models/database.py).  Defaults mirror the
pydantic field defaults. -/
structure SocialMention where
  id : Option String := none
  restaurant_id : Option String := none
  restaurant_name : String
  source_type : SourceType
  source_url : String
  source_id : Option String := none
  title : Option String := none
  raw_text : String
  subreddit : Option String := none
  reddit_score : ℤ := 0
  reddit_num_comments : ℤ := 0
  author : Option String := none
  sentiment_score : Option ℝ := none
  sentiment_label : Option SentimentLabel := none
  aspects : Option (List (String × ℝ)) := none
  dishes_mentioned : List String := []
  price_mentioned : Option String := none
  vibe_extracted : Option String := none
  summary : Option String := none
  engagement_score : ℝ := 0
  posted_at : Option ℤ := none
  scraped_at : Option ℤ := none

/-- `Restaurant` from src/backend/models/database.py, with the pydantic
field defaults. -/
structure Restaurant where
  id : Option String := none
  name : String
  slug : Option String := none
  address : String := ""
  neighborhood : Option String := none
  city : String := "Toronto"
  latitude : ℝ := 0
  longitude : ℝ := 0
  google_place_id : Option String := none
  google_maps_url : Option String := none
  google_rating : Option ℝ := none
  google_reviews_count : ℤ := 0
  price_tier : ℤ := 2
  photo_url : Option String := none
  cuisine_tags : List String := []
  vibe : Option String := none
  recommended_dishes : List String := []
  buzz_score : ℝ := 0
  sentiment_score : ℝ := 0
  viral_score : ℝ := 0
  pro_score : ℝ := 0
  total_mentions : ℕ := 0
  user_likes : ℤ := 0
  user_saves : ℤ := 0
  is_new : Bool := false
  is_trending : Bool := false
  hours : Option (List (String × String)) := none
  sources : List String := []
  source_urls : List String := []
  embedding : Option (List ℝ) := none
  created_at : Option ℤ := none
  updated_at : Option ℤ := none
  last_scraped_at : Option ℤ := none

/-- Modelled from the spec: `RestaurantScores` (its models/scoring.py file
is not present under src/); the field names are fixed by their construction
and use in scoring.py's `calculate_all_scores` and
`update_restaurant_scores`. -/
structure RestaurantScores where
  buzz_score : ℝ
  sentiment_score : ℝ
  viral_score : ℝ
  pro_score : ℝ
  total_mentions : ℕ

/-- Python `round(x, 2)`: round to two decimal digits. -/
noncomputable def round2 (x : ℝ) : ℝ := (round (x * 100) : ℤ) / 100

/-- Python `round(x, 1)`: round to one decimal digit. -/
noncomputable def round1 (x : ℝ) : ℝ := (round (x * 10) : ℤ) / 10

/-- Python `math.log1p`. -/
noncomputable def log1p (x : ℝ) : ℝ := Real.log (1 + x)

/-- `VIRAL_WEIGHTS` dict from scoring.py. -/
noncomputable def VIRAL_WEIGHTS_reddit_score : ℝ := 0.3

/-- `VIRAL_WEIGHTS["reddit_comments"]` from scoring.py. -/
noncomputable def VIRAL_WEIGHTS_reddit_comments : ℝ := 0.3

/-- `VIRAL_WEIGHTS["recency"]` from scoring.py. -/
noncomputable def VIRAL_WEIGHTS_recency : ℝ := 0.2

/-- `VIRAL_WEIGHTS["engagement_rate"]` from scoring.py. -/
noncomputable def VIRAL_WEIGHTS_engagement_rate : ℝ := 0.2

/-- `BUZZ_WEIGHTS` dict from scoring.py. -/
noncomputable def BUZZ_WEIGHTS_sentiment : ℝ := 0.35

/-- `BUZZ_WEIGHTS["viral"]` from scoring.py. -/
noncomputable def BUZZ_WEIGHTS_viral : ℝ := 0.25

/-- `BUZZ_WEIGHTS["mentions"]` from scoring.py. -/
noncomputable def BUZZ_WEIGHTS_mentions : ℝ := 0.20

/-- `BUZZ_WEIGHTS["pro_review"]` from scoring.py. -/
noncomputable def BUZZ_WEIGHTS_pro_review : ℝ := 0.10

/-- `BUZZ_WEIGHTS["google_rating"]` from scoring.py. -/
noncomputable def BUZZ_WEIGHTS_google_rating : ℝ := 0.10

/-- `SOURCE_CREDIBILITY` table from scoring.py, as a total function on the
enum (`SOURCE_CREDIBILITY.get(source_type, 0.5)` never takes its 0.5
default because every enum member is a key of the dict, and the
`except` fallback is likewise dead for an already-validated enum value). -/
noncomputable def SOURCE_CREDIBILITY : SourceType → ℝ
  | .eater => 1.0
  | .toronto_life => 1.0
  | .blogto => 0.9
  | .reddit => 0.7
  | .instagram => 0.6
  | .manual => 0.5

/-- `(now - posted_at).days`: Python `timedelta.days` floors toward
negative infinity, at second resolution in this model. -/
def daysBetween (now t : ℤ) : ℤ := Int.fdiv (now - t) 86400

/-- The recency component one mention adds inside `calculate_viral_score`
(scoring.py lines 94-98): skipped entirely when `posted_at` is falsy
(None); otherwise `max(0, 1 - days_old/30) * 5 * VIRAL_WEIGHTS["recency"]`.
The `else 30` branch of line 96 handles a non-datetime truthy `posted_at`,
which cannot occur for a validated mention, so it has no counterpart here.
Numerically the contribution equals the decay factor itself, because
`5 * 0.2 = 1`. -/
noncomputable def recencyContribution (now : ℤ) (posted : Option ℤ) : ℝ :=
  match posted with
  | none => 0
  | some t => max 0 (1 - (daysBetween now t : ℝ) / 30) * 5 * VIRAL_WEIGHTS_recency

/-- The per-mention score accumulated by the loop body of
`calculate_viral_score` (scoring.py lines 79-105).  `if mention.reddit_score:`
is Python truthiness on an int, i.e. a nonzero test. -/
noncomputable def mentionViralScore (now : ℤ) (m : SocialMention) : ℝ :=
  (if m.reddit_score ≠ 0 then
    min (log1p m.reddit_score / 2) 5 * VIRAL_WEIGHTS_reddit_score
   else 0)
  + (if m.reddit_num_comments ≠ 0 then
      min (log1p m.reddit_num_comments / 1.5) 5 * VIRAL_WEIGHTS_reddit_comments
     else 0)
  + recencyContribution now m.posted_at
  + (if m.reddit_score ≠ 0 ∧ m.reddit_num_comments ≠ 0 then
      min ((m.reddit_num_comments : ℝ) / ((max m.reddit_score 1 : ℤ) : ℝ) * 10) 5
        * VIRAL_WEIGHTS_engagement_rate
     else 0)

/-- `total_score` accumulated over the mention list. -/
noncomputable def viralTotalScore (now : ℤ) (mentions : List SocialMention) : ℝ :=
  (mentions.map (mentionViralScore now)).sum

/-- `calculate_viral_score` (scoring.py lines 58-109); `if not mentions:`
is the emptiness test. -/
noncomputable def calculate_viral_score (now : ℤ) (mentions : List SocialMention) : ℝ :=
  if mentions.isEmpty then 0.0
  else min (round2 (viralTotalScore now mentions / mentions.length)) 10.0

/-- What one loop iteration of `calculate_sentiment_score` (scoring.py
lines 132-147) adds to `weighted_sum`: skipped mentions (sentiment None)
add 0; a scored mention adds its normalized score `(score + 1) * 5` times
its source credibility. -/
noncomputable def sentimentContribution (m : SocialMention) : ℝ :=
  match m.sentiment_score with
  | none => 0
  | some s => (s + 1) * 5 * SOURCE_CREDIBILITY m.source_type

/-- What the same iteration adds to `weight_total`. -/
noncomputable def sentimentWeight (m : SocialMention) : ℝ :=
  match m.sentiment_score with
  | none => 0
  | some _ => SOURCE_CREDIBILITY m.source_type

/-- `weighted_sum` accumulated by the loop of `calculate_sentiment_score`. -/
noncomputable def sentimentWeightedSum (mentions : List SocialMention) : ℝ :=
  (mentions.map sentimentContribution).sum

/-- `weight_total` accumulated by the same loop. -/
noncomputable def sentimentWeightTotal (mentions : List SocialMention) : ℝ :=
  (mentions.map sentimentWeight).sum

/-- `calculate_sentiment_score` (scoring.py lines 112-152): neutral 5.0 for
an empty list and again when the accumulated weight is zero. -/
noncomputable def calculate_sentiment_score (mentions : List SocialMention) : ℝ :=
  if mentions.isEmpty then 5.0
  else if sentimentWeightTotal mentions = 0 then 5.0
  else round2 (sentimentWeightedSum mentions / sentimentWeightTotal mentions)

/-- Membership in `pro_sources = {EATER, BLOGTO, TORONTO_LIFE}`
(scoring.py line 168).  The `isinstance(..., str)` disjunct of the filter
is dead for a validated enum-typed mention. -/
def isProSource : SourceType → Bool
  | .eater => true
  | .blogto => true
  | .toronto_life => true
  | _ => false

/-- The condition of the sentiment bonus loop in `calculate_pro_score`
(scoring.py line 184): `if mention.sentiment_score and
mention.sentiment_score > 0.5` — Python truthiness (not None and nonzero)
conjoined with the threshold. -/
noncomputable def proSentimentBonus (m : SocialMention) : ℝ :=
  match m.sentiment_score with
  | none => 0
  | some s => if s ≠ 0 ∧ s > 0.5 then 1 else 0

/-- Sum of the bonus loop of `calculate_pro_score`. -/
noncomputable def proBonusTotal (mentions : List SocialMention) : ℝ :=
  (mentions.map proSentimentBonus).sum

/-- `calculate_pro_score` (scoring.py lines 155-189). -/
noncomputable def calculate_pro_score (mentions : List SocialMention) : ℝ :=
  let pro_mentions := mentions.filter (fun m => isProSource m.source_type)
  if pro_mentions.isEmpty then 0.0
  else
    let base_score : ℝ := min (pro_mentions.length * 2 : ℕ) 5
    let sentiment_bonus : ℝ := min (proBonusTotal pro_mentions) 5
    min (base_score + sentiment_bonus) 10.0

/-- `calculate_buzz_score` (scoring.py lines 192-239).  The google
component is `(google_rating * 2) if google_rating else 5.0`: Python
truthiness sends both None and 0.0 to the 5.0 default. -/
noncomputable def calculate_buzz_score (sentiment_score viral_score pro_score : ℝ)
    (total_mentions : ℕ) (google_rating : Option ℝ) : ℝ :=
  let mentions_component := min (log1p total_mentions * 2.5) 10
  let google_component : ℝ :=
    match google_rating with
    | none => 5.0
    | some g => if g = 0 then 5.0 else g * 2
  let buzz :=
    sentiment_score * BUZZ_WEIGHTS_sentiment
    + viral_score * BUZZ_WEIGHTS_viral
    + mentions_component * BUZZ_WEIGHTS_mentions
    + pro_score * BUZZ_WEIGHTS_pro_review
    + google_component * BUZZ_WEIGHTS_google_rating
  round1 (min (buzz * 2) 20.0)

/-- `calculate_all_scores` (scoring.py lines 242-275). -/
noncomputable def calculate_all_scores (now : ℤ) (mentions : List SocialMention)
    (google_rating : Option ℝ) : RestaurantScores :=
  let sentiment := calculate_sentiment_score mentions
  let viral := calculate_viral_score now mentions
  let pro := calculate_pro_score mentions
  let total := mentions.length
  { buzz_score := calculate_buzz_score sentiment viral pro total google_rating
    sentiment_score := sentiment
    viral_score := viral
    pro_score := pro
    total_mentions := total }

/-- The filter defining `recent_mentions` in `update_restaurant_scores`
(scoring.py lines 304-307): `m.posted_at and (datetime.now() - m.posted_at).days < 7`. -/
def isRecentMention (now : ℤ) (m : SocialMention) : Bool :=
  match m.posted_at with
  | none => false
  | some t => daysBetween now t < 7

/-- `update_restaurant_scores` (scoring.py lines 278-310). -/
noncomputable def update_restaurant_scores (now : ℤ) (restaurant : Restaurant)
    (mentions : List SocialMention) : Restaurant :=
  let scores := calculate_all_scores now mentions restaurant.google_rating
  let recent_mentions := mentions.filter (isRecentMention now)
  { restaurant with
    buzz_score := scores.buzz_score
    sentiment_score := scores.sentiment_score
    viral_score := scores.viral_score
    pro_score := scores.pro_score
    total_mentions := scores.total_mentions
    is_trending := decide (2 ≤ recent_mentions.length) && decide (scores.viral_score > 5) }

/-- A loosely-typed Python value arriving at the validation boundary of
`SocialMention` (numbers may arrive as ints, floats, or strings). -/
inductive PyVal where
  | int (n : ℤ)
  | float (q : ℚ)
  | str (s : String)
deriving DecidableEq, Repr

/-- Python float-to-int conversion truncates toward zero. -/
def ratTrunc (q : ℚ) : ℤ := if 0 ≤ q then q.floor else -(-q).floor

/-- Whitespace stripped by Python `int(str)`. -/
def isPyWs (c : Char) : Bool := c = ' ' || c = '\t' || c = '\n' || c = '\r'

/-- Helper for digit runs: accumulate decimal digits, allowing a single
underscore between digits as Python integer literals do. -/
def pyDigitsAux : ℕ → List Char → Option ℕ
  | acc, [] => some acc
  | acc, c :: cs =>
    if c.isDigit then pyDigitsAux (acc * 10 + (c.toNat - 48)) cs
    else if c = '_' then
      match cs with
      | c2 :: _ => if c2.isDigit then pyDigitsAux acc cs else none
      | [] => none
    else none

/-- A nonempty digit run (first char must be a digit). -/
def pyDigits : List Char → Option ℕ
  | [] => none
  | c :: cs => if c.isDigit then pyDigitsAux 0 (c :: cs) else none

/-- Modelled Python builtin `int(s)` on a string: optional surrounding
whitespace, optional sign, then decimal digits; anything else (e.g. "N/A",
"12.5") raises ValueError, modeled as `none`. -/
def pyIntOfString (s : String) : Option ℤ :=
  let cs := ((s.toList.dropWhile isPyWs).reverse.dropWhile isPyWs).reverse
  match cs with
  | c :: rest =>
    if c = '+' then (pyDigits rest).map (fun n => (n : ℤ))
    else if c = '-' then (pyDigits rest).map (fun n => -(n : ℤ))
    else (pyDigits cs).map (fun n => (n : ℤ))
  | [] => none

/-- Modelled Python builtin `int(v)` on a loosely-typed value. -/
def pyInt : PyVal → Option ℤ
  | .int n => some n
  | .float q => some (ratTrunc q)
  | .str s => pyIntOfString s

/-- The `coerce_int` mode="before" validator of `SocialMention`
(mention.py lines 41-44): `int(v) if v is not None else 0`; a raised
ValueError is `none` here and becomes a ValidationError at the model
boundary below. -/
def coerce_int : Option PyVal → Option ℤ
  | none => some 0
  | some v => pyInt v

/-- The loosely-typed inputs to a `SocialMention` construction as performed
by run_pipeline (ingest.py lines 367-385).  Fields not involved in the
claims under study arrive already typed. -/
structure MentionInput where
  restaurant_name : String
  source_type : SourceType
  source_url : String
  source_id : Option String := none
  title : Option String := none
  raw_text : String
  subreddit : Option String := none
  reddit_score : Option PyVal := none
  reddit_num_comments : Option PyVal := none
  author : Option String := none
  sentiment_score : Option ℝ := none
  sentiment_label : Option SentimentLabel := none
  dishes_mentioned : List String := []
  price_mentioned : Option String := none
  vibe_extracted : Option String := none
  posted_at : Option ℤ := none

/-- Constructing a `SocialMention`: pydantic runs the `coerce_int`
validator on `reddit_score` and `reddit_num_comments` (mention.py lines
41-44); a coercion failure surfaces as a ValidationError naming the
offending field, modeled as `Except.error` carrying the field name. -/
def mkSocialMention (inp : MentionInput) : Except String SocialMention :=
  match coerce_int inp.reddit_score with
  | none => .error "reddit_score"
  | some rs =>
    match coerce_int inp.reddit_num_comments with
    | none => .error "reddit_num_comments"
    | some rc =>
      .ok { restaurant_name := inp.restaurant_name
            source_type := inp.source_type
            source_url := inp.source_url
            source_id := inp.source_id
            title := inp.title
            raw_text := inp.raw_text
            subreddit := inp.subreddit
            reddit_score := rs
            reddit_num_comments := rc
            author := inp.author
            sentiment_score := inp.sentiment_score
            sentiment_label := inp.sentiment_label
            dishes_mentioned := inp.dishes_mentioned
            price_mentioned := inp.price_mentioned
            vibe_extracted := inp.vibe_extracted
            posted_at := inp.posted_at }

/-- The fields of a `ScrapedContent` item consumed by the run_pipeline
mention-construction loop (ingest.py lines 361-396). -/
structure ContentItem where
  source_type : SourceType
  source_url : String
  source_id : Option String := none
  title : Option String := none
  raw_text : String
  subreddit : Option String := none
  reddit_score : Option PyVal := none
  reddit_num_comments : Option PyVal := none
  author : Option String := none
  posted_at : Option ℤ := none

/-- The fields of an `ExtractedRestaurant` consumed by the same loop. -/
structure ExtractedInfo where
  name : String
  recommended_dishes : List String := []
  price_hint : Option String := none
  vibe : Option String := none

/-- The fields of a `SentimentAnalysis` consumed by the same loop. -/
structure SentimentInfo where
  overall_score : ℝ
  label : Option SentimentLabel := none

/-- Python `x or 0` truthiness from `reddit_score=content.reddit_score or 0`
(ingest.py lines 375-376): None, 0, 0.0, and "" are falsy. -/
def pyOr0 : Option PyVal → PyVal
  | none => .int 0
  | some v =>
    match v with
    | .int n => .int n
    | .float q => if q = 0 then .int 0 else .float q
    | .str s => if s = "" then .int 0 else .str s

/-- The `SocialMention(...)` keyword arguments of ingest.py lines 367-385. -/
def mentionInputOfContent (c : ContentItem) (e : ExtractedInfo)
    (s : Option SentimentInfo) : MentionInput :=
  { restaurant_name := e.name
    source_type := c.source_type
    source_url := c.source_url
    source_id := c.source_id
    title := c.title
    raw_text := c.raw_text
    subreddit := c.subreddit
    reddit_score := some (pyOr0 c.reddit_score)
    reddit_num_comments := some (pyOr0 c.reddit_num_comments)
    author := c.author
    sentiment_score := s.map (fun si => si.overall_score)
    sentiment_label := s.bind (fun si => si.label)
    dishes_mentioned := e.recommended_dishes
    price_mentioned := e.price_hint
    vibe_extracted := e.vibe
    posted_at := c.posted_at }

/-- The inner `for extracted in restaurants` loop of run_pipeline: mentions
are appended one by one; an exception aborts the rest of this content
item's restaurants (appends made so far persist) and is caught by the
enclosing try. -/
def processExtracted (c : ContentItem) (s : Option SentimentInfo) :
    List ExtractedInfo → List SocialMention × Option String
  | [] => ([], none)
  | e :: rest =>
    match mkSocialMention (mentionInputOfContent c e s) with
    | .error msg => ([], some msg)
    | .ok m =>
      let p := processExtracted c s rest
      (m :: p.1, p.2)

/-- The outer `for content in all_content` loop of run_pipeline (ingest.py
lines 361-396): each content item is processed under its own try/except,
so a failure is logged into `stats.errors` and the remaining content items
are still processed.  The extractor's output for each item is supplied as
data (it is an external collaborator). -/
def run_pipeline_step2 :
    List (ContentItem × List ExtractedInfo × Option SentimentInfo) →
    List SocialMention × List String
  | [] => ([], [])
  | (c, es, s) :: rest =>
    let p := processExtracted c s es
    let q := run_pipeline_step2 rest
    (p.1 ++ q.1, match p.2 with | none => q.2 | some msg => msg :: q.2)

/-- JSON values, the possible results of Python `json.loads`. -/
inductive Json where
  | null
  | bool (b : Bool)
  | num (q : ℚ)
  | str (s : String)
  | arr (elems : List Json)
  | obj (fields : List (String × Json))

/-- Whitespace accepted between JSON tokens. -/
def isJsonWs (c : Char) : Bool := c = ' ' || c = '\t' || c = '\n' || c = '\r'

/-- Skip inter-token whitespace. -/
def skipWs (cs : List Char) : List Char := cs.dropWhile isJsonWs

/-- Opening brace character (written by code to keep string literals
brace-free). -/
def lbrace : Char := Char.ofNat 123

/-- Closing brace character. -/
def rbrace : Char := Char.ofNat 125

/-- Hexadecimal digit value. -/
def hexDigit (c : Char) : Option ℕ :=
  if c.isDigit then some (c.toNat - 48)
  else if 'a' ≤ c ∧ c ≤ 'f' then some (c.toNat - 87)
  else if 'A' ≤ c ∧ c ≤ 'F' then some (c.toNat - 55)
  else none

/-- Body of a JSON string after the opening quote: returns the decoded
characters and the remainder after the closing quote.  Escapes follow the
JSON grammar; a `\u` escape whose code point is not a valid `Char`
degrades to the null character (lone surrogates are out of scope of the
claims under study). -/
def parseStringBody : ℕ → List Char → Option (List Char × List Char)
  | 0, _ => none
  | _, [] => none
  | fuel + 1, c :: cs =>
    if c = '"' then some ([], cs)
    else if c = '\\' then
      match cs with
      | [] => none
      | e :: cs2 =>
        let simpleEsc : Option Char :=
          if e = '"' then some '"'
          else if e = '\\' then some '\\'
          else if e = '/' then some '/'
          else if e = 'b' then some (Char.ofNat 8)
          else if e = 'f' then some (Char.ofNat 12)
          else if e = 'n' then some '\n'
          else if e = 'r' then some '\r'
          else if e = 't' then some '\t'
          else none
        match simpleEsc with
        | some ch => (parseStringBody fuel cs2).map (fun p => (ch :: p.1, p.2))
        | none =>
          if e = 'u' then
            match cs2 with
            | h1 :: h2 :: h3 :: h4 :: cs3 =>
              match hexDigit h1, hexDigit h2, hexDigit h3, hexDigit h4 with
              | some a, some b, some c4, some d =>
                (parseStringBody fuel cs3).map
                  (fun p => (Char.ofNat (((a * 16 + b) * 16 + c4) * 16 + d) :: p.1, p.2))
              | _, _, _, _ => none
            | _ => none
          else none
    else if c.toNat < 32 then none
    else (parseStringBody fuel cs).map (fun p => (c :: p.1, p.2))

/-- Digit run to a natural number. -/
def digitsToNat (cs : List Char) : ℕ :=
  cs.foldl (fun acc c => acc * 10 + (c.toNat - 48)) 0

/-- A JSON number: optional minus, strict integer part (no leading zeros),
optional fraction, optional exponent. -/
def parseNumber (cs : List Char) : Option (ℚ × List Char) :=
  let (neg, cs1) :=
    match cs with
    | c :: rest => if c = '-' then (true, rest) else (false, cs)
    | [] => (false, cs)
  let intDigits := cs1.takeWhile Char.isDigit
  let cs2 := cs1.dropWhile Char.isDigit
  if intDigits = [] then none
  else if intDigits.head? = some '0' ∧ intDigits.length > 1 then none
  else
    let ipart : ℚ := (digitsToNat intDigits : ℕ)
    let (fpart, cs3) :=
      match cs2 with
      | c :: rest =>
        if c = '.' then
          let fracDigits := rest.takeWhile Char.isDigit
          if fracDigits = [] then (none, cs2)
          else (some ((digitsToNat fracDigits : ℚ) / (10 : ℚ) ^ fracDigits.length),
                rest.dropWhile Char.isDigit)
        else (some 0, cs2)
      | [] => (some 0, cs2)
    match fpart with
    | none => none
    | some f =>
      let base := ipart + f
      let (epart, cs4) :=
        match cs3 with
        | c :: rest =>
          if c = 'e' ∨ c = 'E' then
            let (eneg, rest2) :=
              match rest with
              | c2 :: r2 =>
                if c2 = '-' then (true, r2)
                else if c2 = '+' then (false, r2) else (false, rest)
              | [] => (false, rest)
            let eDigits := rest2.takeWhile Char.isDigit
            if eDigits = [] then (none, cs3)
            else
              let e := digitsToNat eDigits
              (some (if eneg then base / (10 : ℚ) ^ e else base * (10 : ℚ) ^ e),
               rest2.dropWhile Char.isDigit)
          else (some base, cs3)
        | [] => (some base, cs3)
      match epart with
      | none => none
      | some v => some ((if neg then -v else v), cs4)

mutual

/-- A JSON value with surrounding-whitespace handling on the left. -/
def parseValue : ℕ → List Char → Option (Json × List Char)
  | 0, _ => none
  | fuel + 1, cs =>
    let cs := skipWs cs
    match cs with
    | [] => none
    | c :: rest =>
      if c = 'n' then
        match rest with
        | 'u' :: 'l' :: 'l' :: r => some (.null, r)
        | _ => none
      else if c = 't' then
        match rest with
        | 'r' :: 'u' :: 'e' :: r => some (.bool true, r)
        | _ => none
      else if c = 'f' then
        match rest with
        | 'a' :: 'l' :: 's' :: 'e' :: r => some (.bool false, r)
        | _ => none
      else if c = '"' then
        (parseStringBody (rest.length + 1) rest).map
          (fun p => (.str (String.mk p.1), p.2))
      else if c = '[' then
        let r2 := skipWs rest
        match r2 with
        | ']' :: r3 => some (.arr [], r3)
        | _ => (parseElems fuel r2).map (fun p => (.arr p.1, p.2))
      else if c = lbrace then
        let r2 := skipWs rest
        match r2 with
        | c2 :: r3 =>
          if c2 = rbrace then some (.obj [], r3)
          else (parseMembers fuel r2).map (fun p => (.obj p.1, p.2))
        | [] => none
      else if c = '-' ∨ c.isDigit then
        (parseNumber cs).map (fun p => (.num p.1, p.2))
      else none

/-- Elements of a nonempty JSON array, after the opening bracket. -/
def parseElems : ℕ → List Char → Option (List Json × List Char)
  | 0, _ => none
  | fuel + 1, cs =>
    match parseValue fuel cs with
    | none => none
    | some (v, rest) =>
      let rest := skipWs rest
      match rest with
      | ',' :: r2 => (parseElems fuel r2).map (fun p => (v :: p.1, p.2))
      | ']' :: r2 => some ([v], r2)
      | _ => none

/-- Members of a nonempty JSON object, after the opening brace. -/
def parseMembers : ℕ → List Char → Option (List (String × Json) × List Char)
  | 0, _ => none
  | fuel + 1, cs =>
    let cs := skipWs cs
    match cs with
    | '"' :: r =>
      match parseStringBody (r.length + 1) r with
      | none => none
      | some (key, r2) =>
        let r2 := skipWs r2
        match r2 with
        | ':' :: r3 =>
          match parseValue fuel r3 with
          | none => none
          | some (v, r4) =>
            let r4 := skipWs r4
            match r4 with
            | ',' :: r5 => (parseMembers fuel r5).map
                (fun p => ((String.mk key, v) :: p.1, p.2))
            | c :: r5 =>
              if c = rbrace then some ([(String.mk key, v)], r5) else none
            | [] => none
        | _ => none
    | _ => none

end

/-- Modelled Python stdlib `json.loads`: parse one JSON document and
require only whitespace to follow; any parse failure is `none` (a raised
`JSONDecodeError`).  NaN/Infinity extensions are out of scope of the
claims under study. -/
def jsonLoads (s : String) : Option Json :=
  match parseValue (s.length + 1) s.toList with
  | none => none
  | some (v, rest) => if skipWs rest = [] then some v else none

/-- The loosely-typed input to the `coerce_list` validator: None, a string,
or an already-list value. -/
inductive ListFieldInput where
  | none
  | str (s : String)
  | list (xs : List String)

/-- The `coerce_list` mode="before" validator of `SocialMention`
(mention.py lines 58-66): None becomes the empty list; a string is passed
to `json.loads`, with ANY failure mapped to the empty list by the bare
`except`; any other value is returned unchanged.  A Python list of strings
is rendered as a JSON array of strings so all branches share one result
type. -/
def coerce_list : ListFieldInput → Json
  | .none => .arr []
  | .str s =>
    match jsonLoads s with
    | some v => v
    | Option.none => .arr []
  | .list xs => .arr (xs.map Json.str)

/-- Strip leading and trailing whitespace from a character list. -/
def trimChars (cs : List Char) : List Char :=
  ((cs.dropWhile isPyWs).reverse.dropWhile isPyWs).reverse

/-- Split a character list on commas. -/
def splitCommaChars : List Char → List (List Char)
  | [] => [[]]
  | c :: cs =>
    if c = ',' then [] :: splitCommaChars cs
    else
      match splitCommaChars cs with
      | [] => [[c]]
      | g :: gs => (c :: g) :: gs

/-- The behavior claimed by the spec for non-JSON strings (written from the
claim's words, for refutation): split on commas and trim each element. -/
def commaSplitTrim (s : String) : List String :=
  (splitCommaChars s.toList).map (fun g => String.mk (trimChars g))

/-- The window predicate of claim C6 as worded ("posted_at within the last
7 days before now"), for comparison with the code's whole-day test. -/
def withinLast7Days (now : ℤ) (m : SocialMention) : Bool :=
  match m.posted_at with
  | none => false
  | some t => decide (0 ≤ now - t ∧ now - t < 7 * 86400)

/-! ### Shared helper lemmas -/

lemma round_le_round {x y : ℝ} (h : x ≤ y) : (round x : ℤ) ≤ round y := by
  rw [round_eq, round_eq]
  exact Int.floor_le_floor (by linarith)

lemma round2_mono {x y : ℝ} (h : x ≤ y) : round2 x ≤ round2 y := by
  unfold round2
  have h2 := round_le_round (show x * 100 ≤ y * 100 by linarith)
  have h3 : ((round (x * 100) : ℤ) : ℝ) ≤ ((round (y * 100) : ℤ) : ℝ) := by
    exact_mod_cast h2
  linarith

lemma round1_mono {x y : ℝ} (h : x ≤ y) : round1 x ≤ round1 y := by
  unfold round1
  have h2 := round_le_round (show x * 10 ≤ y * 10 by linarith)
  have h3 : ((round (x * 10) : ℤ) : ℝ) ≤ ((round (x * 10) : ℤ) : ℝ) := le_rfl
  have h4 : ((round (x * 10) : ℤ) : ℝ) ≤ ((round (y * 10) : ℤ) : ℝ) := by
    exact_mod_cast h2
  linarith

lemma round2_intCast (n : ℤ) : round2 (n : ℝ) = n := by
  unfold round2
  rw [show ((n : ℝ) * 100) = (((n * 100 : ℤ)) : ℝ) by push_cast; ring, round_intCast]
  push_cast
  ring

lemma round2_le_add (x : ℝ) : round2 x ≤ x + 1 / 200 := by
  unfold round2
  have h := abs_sub_round (x * 100)
  rw [abs_le] at h
  have h1 : ((round (x * 100) : ℤ) : ℝ) ≤ x * 100 + 1 / 2 := by linarith [h.1]
  linarith

lemma round2_ge_sub (x : ℝ) : x - 1 / 200 ≤ round2 x := by
  unfold round2
  have h := abs_sub_round (x * 100)
  rw [abs_le] at h
  have h1 : x * 100 - 1 / 2 ≤ ((round (x * 100) : ℤ) : ℝ) := by linarith [h.2]
  linarith

lemma round1_le_add (x : ℝ) : round1 x ≤ x + 1 / 20 := by
  unfold round1
  have h := abs_sub_round (x * 10)
  rw [abs_le] at h
  have h1 : ((round (x * 10) : ℤ) : ℝ) ≤ x * 10 + 1 / 2 := by linarith [h.1]
  linarith

lemma round1_ge_sub (x : ℝ) : x - 1 / 20 ≤ round1 x := by
  unfold round1
  have h := abs_sub_round (x * 10)
  rw [abs_le] at h
  have h1 : x * 10 - 1 / 2 ≤ ((round (x * 10) : ℤ) : ℝ) := by linarith [h.2]
  linarith

lemma round2_zero : round2 0 = 0 := by
  have h := round2_intCast 0
  simpa using h

lemma round2_nonneg {x : ℝ} (h : 0 ≤ x) : 0 ≤ round2 x := by
  have := round2_mono h
  rwa [round2_zero] at this

lemma SOURCE_CREDIBILITY_pos (st : SourceType) : 0 < SOURCE_CREDIBILITY st := by
  cases st <;> norm_num [SOURCE_CREDIBILITY]

lemma sentimentWeight_nonneg (m : SocialMention) : 0 ≤ sentimentWeight m := by
  unfold sentimentWeight
  cases m.sentiment_score with
  | none => simp
  | some s => simpa using (SOURCE_CREDIBILITY_pos m.source_type).le

lemma sentimentWeightTotal_nonneg (ms : List SocialMention) :
    0 ≤ sentimentWeightTotal ms := by
  unfold sentimentWeightTotal
  apply List.sum_nonneg
  intro x hx
  obtain ⟨m, _, rfl⟩ := List.mem_map.mp hx
  exact sentimentWeight_nonneg m

lemma sentimentWeightedSum_append (xs ys : List SocialMention) :
    sentimentWeightedSum (xs ++ ys) = sentimentWeightedSum xs + sentimentWeightedSum ys := by
  simp [sentimentWeightedSum]

lemma sentimentWeightTotal_append (xs ys : List SocialMention) :
    sentimentWeightTotal (xs ++ ys) = sentimentWeightTotal xs + sentimentWeightTotal ys := by
  simp [sentimentWeightTotal]

lemma sentimentWeight_eq_zero {m : SocialMention} (h : sentimentWeight m = 0) :
    m.sentiment_score = none := by
  unfold sentimentWeight at h
  cases hs : m.sentiment_score with
  | none => rfl
  | some s =>
    rw [hs] at h
    exact absurd h (ne_of_gt (SOURCE_CREDIBILITY_pos m.source_type))

lemma sentimentContribution_of_none {m : SocialMention} (h : m.sentiment_score = none) :
    sentimentContribution m = 0 := by
  unfold sentimentContribution
  rw [h]

lemma sentimentWeightedSum_eq_zero {ms : List SocialMention}
    (h : sentimentWeightTotal ms = 0) : sentimentWeightedSum ms = 0 := by
  induction ms with
  | nil => simp [sentimentWeightedSum]
  | cons m rest ih =>
    have hsplit : sentimentWeight m + sentimentWeightTotal rest = 0 := by
      simpa [sentimentWeightTotal] using h
    have h1 : sentimentWeight m = 0 := by
      have := sentimentWeightTotal_nonneg rest
      have := sentimentWeight_nonneg m
      linarith
    have h2 : sentimentWeightTotal rest = 0 := by
      have := sentimentWeight_nonneg m
      have := sentimentWeightTotal_nonneg rest
      linarith
    have h3 := sentimentContribution_of_none (sentimentWeight_eq_zero h1)
    simp [sentimentWeightedSum] at ih ⊢
    rw [show sentimentContribution m = 0 from h3]
    simpa [sentimentWeightedSum] using ih h2

lemma sentimentWeightTotal_all_none {ms : List SocialMention}
    (h : ∀ m ∈ ms, m.sentiment_score = none) : sentimentWeightTotal ms = 0 := by
  unfold sentimentWeightTotal
  rw [List.sum_eq_zero]
  intro x hx
  obtain ⟨m, hm, rfl⟩ := List.mem_map.mp hx
  unfold sentimentWeight
  rw [h m hm]

lemma sentimentWeightedSum_filter (ms : List SocialMention) :
    sentimentWeightedSum (ms.filter (fun m => m.sentiment_score.isSome))
      = sentimentWeightedSum ms := by
  induction ms with
  | nil => rfl
  | cons m rest ih =>
    rw [List.filter_cons]
    by_cases hp : m.sentiment_score.isSome
    · rw [if_pos hp]
      unfold sentimentWeightedSum at ih ⊢
      simp only [List.map_cons, List.sum_cons]
      rw [ih]
    · rw [if_neg hp]
      have hs : m.sentiment_score = none := by
        cases h2 : m.sentiment_score
        · rfl
        · rw [h2] at hp; simp at hp
      have h0 := sentimentContribution_of_none hs
      unfold sentimentWeightedSum at ih ⊢
      simp only [List.map_cons, List.sum_cons]
      rw [ih, h0, zero_add]

lemma sentimentWeightTotal_filter (ms : List SocialMention) :
    sentimentWeightTotal (ms.filter (fun m => m.sentiment_score.isSome))
      = sentimentWeightTotal ms := by
  induction ms with
  | nil => rfl
  | cons m rest ih =>
    rw [List.filter_cons]
    by_cases hp : m.sentiment_score.isSome
    · rw [if_pos hp]
      unfold sentimentWeightTotal at ih ⊢
      simp only [List.map_cons, List.sum_cons]
      rw [ih]
    · rw [if_neg hp]
      have hs : m.sentiment_score = none := by
        cases h2 : m.sentiment_score
        · rfl
        · rw [h2] at hp; simp at hp
      have h0 : sentimentWeight m = 0 := by unfold sentimentWeight; rw [hs]
      unfold sentimentWeightTotal at ih ⊢
      simp only [List.map_cons, List.sum_cons]
      rw [ih, h0, zero_add]

lemma sentimentContribution_nonneg {m : SocialMention}
    (h : ∀ s, m.sentiment_score = some s → -1 ≤ s) : 0 ≤ sentimentContribution m := by
  unfold sentimentContribution
  cases hs : m.sentiment_score with
  | none => simp
  | some s =>
    have hb := h s hs
    have hc := (SOURCE_CREDIBILITY_pos m.source_type).le
    simp only []
    apply mul_nonneg (mul_nonneg (by linarith) (by norm_num)) hc

lemma sentimentWeightedSum_nonneg {ms : List SocialMention}
    (h : ∀ m ∈ ms, ∀ s, m.sentiment_score = some s → -1 ≤ s) :
    0 ≤ sentimentWeightedSum ms := by
  unfold sentimentWeightedSum
  apply List.sum_nonneg
  intro x hx
  obtain ⟨m, hm, rfl⟩ := List.mem_map.mp hx
  exact sentimentContribution_nonneg (h m hm)

lemma sentimentContribution_le {m : SocialMention}
    (h : ∀ s, m.sentiment_score = some s → s ≤ 1) :
    sentimentContribution m ≤ 10 * sentimentWeight m := by
  unfold sentimentContribution sentimentWeight
  cases hs : m.sentiment_score with
  | none => simp
  | some s =>
    have hb := h s hs
    have hc := SOURCE_CREDIBILITY_pos m.source_type
    simp only []
    nlinarith

lemma sentimentWeightedSum_le {ms : List SocialMention}
    (h : ∀ m ∈ ms, ∀ s, m.sentiment_score = some s → s ≤ 1) :
    sentimentWeightedSum ms ≤ 10 * sentimentWeightTotal ms := by
  induction ms with
  | nil => simp [sentimentWeightedSum, sentimentWeightTotal]
  | cons m rest ih =>
    have h1 := sentimentContribution_le (h m (List.mem_cons_self m rest))
    have h2 := ih (fun x hx s hs => h x (List.mem_cons_of_mem m hx) s hs)
    unfold sentimentWeightedSum sentimentWeightTotal at h2 ⊢
    simp only [List.map_cons, List.sum_cons]
    linarith

lemma log1p_nonneg {x : ℝ} (h : 0 ≤ x) : 0 ≤ log1p x :=
  Real.log_nonneg (by linarith)

lemma log1p_mono {x y : ℝ} (hx : 0 ≤ x) (h : x ≤ y) : log1p x ≤ log1p y :=
  Real.log_le_log (by linarith) (by linarith)

lemma recencyContribution_nonneg (now : ℤ) (p : Option ℤ) :
    0 ≤ recencyContribution now p := by
  unfold recencyContribution
  cases p with
  | none => simp
  | some t =>
    apply mul_nonneg (mul_nonneg (le_max_left 0 _) (by norm_num))
    norm_num [VIRAL_WEIGHTS_recency]

lemma recencyContribution_some (now t : ℤ) :
    recencyContribution now (some t)
      = max 0 (1 - ((daysBetween now t : ℤ) : ℝ) / 30) * 5 * VIRAL_WEIGHTS_recency := rfl

lemma mentionViralScore_nonneg (now : ℤ) {m : SocialMention}
    (h1 : 0 ≤ m.reddit_score) (h2 : 0 ≤ m.reddit_num_comments) :
    0 ≤ mentionViralScore now m := by
  unfold mentionViralScore
  have c1 : (0:ℝ) ≤
      (if m.reddit_score ≠ 0 then
        min (log1p m.reddit_score / 2) 5 * VIRAL_WEIGHTS_reddit_score else 0) := by
    split_ifs with hif
    · apply mul_nonneg _ (by norm_num [VIRAL_WEIGHTS_reddit_score])
      exact le_min (div_nonneg (log1p_nonneg (by exact_mod_cast h1)) (by norm_num)) (by norm_num)
    · exact le_rfl
  have c2 : (0:ℝ) ≤
      (if m.reddit_num_comments ≠ 0 then
        min (log1p m.reddit_num_comments / 1.5) 5 * VIRAL_WEIGHTS_reddit_comments else 0) := by
    split_ifs with hif
    · apply mul_nonneg _ (by norm_num [VIRAL_WEIGHTS_reddit_comments])
      exact le_min (div_nonneg (log1p_nonneg (by exact_mod_cast h2)) (by norm_num)) (by norm_num)
    · exact le_rfl
  have c3 := recencyContribution_nonneg now m.posted_at
  have c4 : (0:ℝ) ≤
      (if m.reddit_score ≠ 0 ∧ m.reddit_num_comments ≠ 0 then
        min ((m.reddit_num_comments : ℝ) / ((max m.reddit_score 1 : ℤ) : ℝ) * 10) 5
          * VIRAL_WEIGHTS_engagement_rate else 0) := by
    split_ifs with hif
    · apply mul_nonneg _ (by norm_num [VIRAL_WEIGHTS_engagement_rate])
      apply le_min _ (by norm_num)
      have hden : (0:ℝ) ≤ ((max m.reddit_score 1 : ℤ) : ℝ) := by
        have hd : (0:ℤ) ≤ max m.reddit_score 1 := le_trans (by norm_num) (le_max_right _ _)
        exact_mod_cast hd
      exact mul_nonneg (div_nonneg (by exact_mod_cast h2) hden) (by norm_num)
    · exact le_rfl
  linarith

lemma proSentimentBonus_nonneg (m : SocialMention) : 0 ≤ proSentimentBonus m := by
  unfold proSentimentBonus
  cases m.sentiment_score with
  | none => simp
  | some s => simp only []; split_ifs <;> norm_num

lemma proBonusTotal_nonneg (ms : List SocialMention) : 0 ≤ proBonusTotal ms := by
  unfold proBonusTotal
  apply List.sum_nonneg
  intro x hx
  obtain ⟨m, _, rfl⟩ := List.mem_map.mp hx
  exact proSentimentBonus_nonneg m

lemma proBonusTotal_append (xs ys : List SocialMention) :
    proBonusTotal (xs ++ ys) = proBonusTotal xs + proBonusTotal ys := by
  simp [proBonusTotal]

lemma calculate_pro_score_nonneg (ms : List SocialMention) :
    0 ≤ calculate_pro_score ms := by
  unfold calculate_pro_score
  cases hf : ms.filter (fun m => isProSource m.source_type) with
  | nil => simp only [hf]; norm_num
  | cons x xs =>
    simp only [hf]
    apply le_min _ (by norm_num)
    apply add_nonneg
    · exact le_min (by positivity) (by norm_num)
    · exact le_min (proBonusTotal_nonneg _) (by norm_num)

lemma calculate_buzz_score_none (s v p : ℝ) (n : ℕ) :
    calculate_buzz_score s v p n none
      = round1 (min ((s * BUZZ_WEIGHTS_sentiment + v * BUZZ_WEIGHTS_viral
          + min (log1p n * 2.5) 10 * BUZZ_WEIGHTS_mentions
          + p * BUZZ_WEIGHTS_pro_review
          + 5.0 * BUZZ_WEIGHTS_google_rating) * 2) 20.0) := rfl

lemma div_le_div_append {W T n c : ℝ} (hT : 0 < T) (hc : 0 < c) (h : W ≤ n * T) :
    W / T ≤ (W + n * c) / (T + c) := by
  rw [div_le_div_iff₀ hT (by linarith)]
  nlinarith

lemma calculate_buzz_score_mono {s1 s2 v1 v2 p1 p2 : ℝ} {n1 n2 : ℕ} (g : Option ℝ)
    (hs : s1 ≤ s2) (hv : v1 ≤ v2) (hp : p1 ≤ p2) (hn : n1 ≤ n2) :
    calculate_buzz_score s1 v1 p1 n1 g ≤ calculate_buzz_score s2 v2 p2 n2 g := by
  simp only [calculate_buzz_score]
  apply round1_mono
  apply min_le_min _ le_rfl
  have hmc : min (log1p n1 * 2.5) 10 ≤ min (log1p n2 * 2.5) 10 := by
    apply min_le_min _ le_rfl
    have hl := log1p_mono (x := (n1:ℝ)) (y := (n2:ℝ)) (by positivity) (by exact_mod_cast hn)
    nlinarith
  simp only [BUZZ_WEIGHTS_sentiment, BUZZ_WEIGHTS_viral, BUZZ_WEIGHTS_mentions,
    BUZZ_WEIGHTS_pro_review, BUZZ_WEIGHTS_google_rating]
  have hgc : (0:ℝ) ≤ (match g with
      | none => (5.0:ℝ)
      | some gr => if gr = 0 then (5.0:ℝ) else gr * 2) -
      (match g with
      | none => (5.0:ℝ)
      | some gr => if gr = 0 then (5.0:ℝ) else gr * 2) := by linarith
  nlinarith [hmc]

lemma viralTotalScore_append (now : ℤ) (xs ys : List SocialMention) :
    viralTotalScore now (xs ++ ys) = viralTotalScore now xs + viralTotalScore now ys := by
  simp [viralTotalScore]

lemma round2_five : round2 5 = 5 := by
  have h := round2_intCast 5
  simpa using h

lemma calculate_sentiment_append_le (ms : List SocialMention) (m : SocialMention) (s : ℝ)
    (hsent : m.sentiment_score = some s) (hs : 0 < s)
    (hsw : sentimentWeightedSum ms ≤ (s + 1) * 5 * sentimentWeightTotal ms) :
    calculate_sentiment_score ms ≤ calculate_sentiment_score (ms ++ [m]) := by
  have hc := SOURCE_CREDIBILITY_pos m.source_type
  have hwm : sentimentWeight m = SOURCE_CREDIBILITY m.source_type := by
    unfold sentimentWeight; rw [hsent]
  have hcm : sentimentContribution m = (s + 1) * 5 * SOURCE_CREDIBILITY m.source_type := by
    unfold sentimentContribution; rw [hsent]
  have hW1 : sentimentWeightedSum [m] = (s + 1) * 5 * SOURCE_CREDIBILITY m.source_type := by
    simp [sentimentWeightedSum, hcm]
  have hT1 : sentimentWeightTotal [m] = SOURCE_CREDIBILITY m.source_type := by
    simp [sentimentWeightTotal, hwm]
  have hTnn := sentimentWeightTotal_nonneg ms
  have hfive : (5:ℝ) ≤ round2 ((s + 1) * 5) := by
    have hmono := round2_mono (show (5:ℝ) ≤ (s + 1) * 5 by nlinarith)
    rwa [round2_five] at hmono
  have hne : (ms ++ [m]).isEmpty = false := by simp
  unfold calculate_sentiment_score
  simp only [hne, Bool.false_eq_true, if_false,
    sentimentWeightTotal_append, sentimentWeightedSum_append, hW1, hT1]
  by_cases hms : ms.isEmpty
  · have hms' : ms = [] := by simpa using hms
    subst hms'
    have hz1 : sentimentWeightedSum ([] : List SocialMention) = 0 := by
      simp [sentimentWeightedSum]
    have hz2 : sentimentWeightTotal ([] : List SocialMention) = 0 := by
      simp [sentimentWeightTotal]
    rw [hz1, hz2]
    rw [if_pos (by rfl), if_neg (by intro h; nlinarith)]
    rw [show (0 + (s + 1) * 5 * SOURCE_CREDIBILITY m.source_type) /
          (0 + SOURCE_CREDIBILITY m.source_type) = (s + 1) * 5 by
      field_simp]
    rw [show (5.0:ℝ) = 5 by norm_num]
    exact hfive
  · rw [if_neg hms]
    by_cases hT : sentimentWeightTotal ms = 0
    · have hW : sentimentWeightedSum ms = 0 := sentimentWeightedSum_eq_zero hT
      rw [hT, hW]
      rw [if_pos rfl, if_neg (by intro h; nlinarith)]
      rw [show (0 + (s + 1) * 5 * SOURCE_CREDIBILITY m.source_type) /
            (0 + SOURCE_CREDIBILITY m.source_type) = (s + 1) * 5 by
        field_simp]
      rw [show (5.0:ℝ) = 5 by norm_num]
      exact hfive
    · have hTpos : 0 < sentimentWeightTotal ms := lt_of_le_of_ne hTnn (Ne.symm hT)
      rw [if_neg hT, if_neg (by intro h; nlinarith)]
      apply round2_mono
      exact div_le_div_append hTpos hc hsw

lemma calculate_viral_append_le (now : ℤ) (ms : List SocialMention) (m : SocialMention)
    (h1 : 0 ≤ m.reddit_score) (h2 : 0 ≤ m.reddit_num_comments)
    (hv : viralTotalScore now ms ≤ ms.length * mentionViralScore now m) :
    calculate_viral_score now ms ≤ calculate_viral_score now (ms ++ [m]) := by
  have hvm := mentionViralScore_nonneg now h1 h2
  have hne : (ms ++ [m]).isEmpty = false := by simp
  have happ : viralTotalScore now (ms ++ [m])
      = viralTotalScore now ms + mentionViralScore now m := by
    simp [viralTotalScore]
  unfold calculate_viral_score
  simp only [hne, Bool.false_eq_true, if_false]
  by_cases hms : ms.isEmpty
  · have hms' : ms = [] := by simpa using hms
    subst hms'
    rw [if_pos (by rfl)]
    have hz : viralTotalScore now ([] : List SocialMention) = 0 := by
      simp [viralTotalScore]
    rw [happ, hz, zero_add]
    have hlen : (([] ++ [m] : List SocialMention).length : ℝ) = 1 := by simp
    rw [hlen, div_one, show (0.0:ℝ) = 0 by norm_num]
    exact le_min (round2_nonneg hvm) (by norm_num)
  · have hms' : ms ≠ [] := by simpa using hms
    rw [if_neg hms]
    have hlen : (0:ℝ) < (ms.length : ℝ) := by
      have := List.length_pos.mpr hms'
      exact_mod_cast this
    apply min_le_min _ le_rfl
    apply round2_mono
    rw [happ]
    have hcast : (((ms ++ [m]).length : ℕ) : ℝ) = (ms.length : ℝ) + 1 := by
      rw [List.length_append]
      push_cast
      norm_num
    rw [hcast]
    have hv' : viralTotalScore now ms ≤ mentionViralScore now m * (ms.length : ℝ) := by
      calc viralTotalScore now ms ≤ (ms.length : ℝ) * mentionViralScore now m := hv
        _ = mentionViralScore now m * (ms.length : ℝ) := by ring
    have := div_le_div_append hlen one_pos hv'
    simpa using this

lemma calculate_pro_score_append (ms : List SocialMention) (m : SocialMention) :
    calculate_pro_score ms ≤ calculate_pro_score (ms ++ [m]) := by
  simp only [calculate_pro_score, List.filter_append]
  by_cases hm : isProSource m.source_type
  · have hfm : List.filter (fun x => isProSource x.source_type) [m] = [m] := by
      simp [hm]
    rw [hfm]
    have hne : ((ms.filter (fun x => isProSource x.source_type)) ++ [m]).isEmpty = false := by
      simp
    simp only [hne, Bool.false_eq_true, if_false]
    by_cases he : (ms.filter (fun x => isProSource x.source_type)).isEmpty
    · rw [if_pos he, show (0.0:ℝ) = 0 by norm_num]
      apply le_min _ (by norm_num)
      exact add_nonneg (le_min (by positivity) (by norm_num))
        (le_min (proBonusTotal_nonneg _) (by norm_num))
    · rw [if_neg he]
      apply min_le_min _ le_rfl
      apply add_le_add
      · apply min_le_min _ le_rfl
        have hlen : (ms.filter (fun x => isProSource x.source_type)).length * 2
            ≤ ((ms.filter (fun x => isProSource x.source_type)) ++ [m]).length * 2 := by
          simp [List.length_append]
        exact_mod_cast hlen
      · apply min_le_min _ le_rfl
        rw [proBonusTotal_append]
        linarith [proBonusTotal_nonneg [m]]
  · have hfm : List.filter (fun x => isProSource x.source_type) [m] = [] := by
      simp [hm]
    rw [hfm, List.append_nil]

/-! ### Claim theorems -/

/-- C10 (confirmed): `update_restaurant_scores` modifies only the six
score-related fields (buzz_score, sentiment_score, viral_score, pro_score,
total_mentions, is_trending); every other field of the restaurant record is
returned unchanged, and `total_mentions` equals the length of the mention
list used to compute the scores. -/
theorem C10_update_scores_frame (now : ℤ) (r : Restaurant) (ms : List SocialMention) :
    (update_restaurant_scores now r ms).id = r.id
    ∧ (update_restaurant_scores now r ms).name = r.name
    ∧ (update_restaurant_scores now r ms).slug = r.slug
    ∧ (update_restaurant_scores now r ms).address = r.address
    ∧ (update_restaurant_scores now r ms).neighborhood = r.neighborhood
    ∧ (update_restaurant_scores now r ms).city = r.city
    ∧ (update_restaurant_scores now r ms).latitude = r.latitude
    ∧ (update_restaurant_scores now r ms).longitude = r.longitude
    ∧ (update_restaurant_scores now r ms).google_place_id = r.google_place_id
    ∧ (update_restaurant_scores now r ms).google_maps_url = r.google_maps_url
    ∧ (update_restaurant_scores now r ms).google_rating = r.google_rating
    ∧ (update_restaurant_scores now r ms).google_reviews_count = r.google_reviews_count
    ∧ (update_restaurant_scores now r ms).price_tier = r.price_tier
    ∧ (update_restaurant_scores now r ms).photo_url = r.photo_url
    ∧ (update_restaurant_scores now r ms).cuisine_tags = r.cuisine_tags
    ∧ (update_restaurant_scores now r ms).vibe = r.vibe
    ∧ (update_restaurant_scores now r ms).recommended_dishes = r.recommended_dishes
    ∧ (update_restaurant_scores now r ms).user_likes = r.user_likes
    ∧ (update_restaurant_scores now r ms).user_saves = r.user_saves
    ∧ (update_restaurant_scores now r ms).is_new = r.is_new
    ∧ (update_restaurant_scores now r ms).hours = r.hours
    ∧ (update_restaurant_scores now r ms).sources = r.sources
    ∧ (update_restaurant_scores now r ms).source_urls = r.source_urls
    ∧ (update_restaurant_scores now r ms).embedding = r.embedding
    ∧ (update_restaurant_scores now r ms).created_at = r.created_at
    ∧ (update_restaurant_scores now r ms).updated_at = r.updated_at
    ∧ (update_restaurant_scores now r ms).last_scraped_at = r.last_scraped_at
    ∧ (update_restaurant_scores now r ms).total_mentions = ms.length :=
  ⟨rfl, rfl, rfl, rfl, rfl, rfl, rfl, rfl, rfl, rfl, rfl, rfl, rfl, rfl,
   rfl, rfl, rfl, rfl, rfl, rfl, rfl, rfl, rfl, rfl, rfl, rfl, rfl, rfl⟩

/-- C5 (corrected): a mention with absent `posted_at` gets a recency
contribution of exactly 0 — the recency block is skipped, equivalent to a
decay factor of 0, the floor itself, not merely "near" it — which is never
the contribution of a mention posted at "now" (that is 1.0), and replacing
an absent timestamp by any timestamp never lowers the mention's viral
component, so undated mentions cannot inflate the viral score. -/
theorem C5_undated_mention_recency (now : ℤ) (m : SocialMention) (t : ℤ) :
    recencyContribution now none = 0
    ∧ recencyContribution now (some now) = 1
    ∧ mentionViralScore now { m with posted_at := none }
        ≤ mentionViralScore now { m with posted_at := some t } := by
  refine ⟨rfl, ?_, ?_⟩
  · rw [recencyContribution_some]
    unfold daysBetween
    rw [sub_self]
    norm_num [Int.zero_fdiv, VIRAL_WEIGHTS_recency, max_def]
  · unfold mentionViralScore
    have e1 : ({ m with posted_at := none } : SocialMention).reddit_score
        = m.reddit_score := rfl
    have e2 : ({ m with posted_at := none } : SocialMention).reddit_num_comments
        = m.reddit_num_comments := rfl
    have e3 : ({ m with posted_at := none } : SocialMention).posted_at = none := rfl
    have f1 : ({ m with posted_at := some t } : SocialMention).reddit_score
        = m.reddit_score := rfl
    have f2 : ({ m with posted_at := some t } : SocialMention).reddit_num_comments
        = m.reddit_num_comments := rfl
    have f3 : ({ m with posted_at := some t } : SocialMention).posted_at = some t := rfl
    rw [e1, e2, e3, f1, f2, f3]
    have hz : recencyContribution now none = 0 := rfl
    rw [hz]
    linarith [recencyContribution_nonneg now (some t)]

/-- C5 counterexample to the claim as stated: the claim asserts the decay
contribution of an undated mention is "not zero"; in the code the recency
block is skipped entirely, i.e. it is exactly zero. -/
theorem C5_counterexample : ¬ (recencyContribution 0 none ≠ 0) :=
  fun h => h rfl

/-- C4 (corrected): with both mentions dated and otherwise identical, the
per-mention viral component is strictly smaller for the mention with the
strictly larger *whole-day* age `(now - posted_at).days` (Python's
`timedelta.days`), provided the nearer mention is strictly inside the
30-day horizon; the decay factor is linear in that whole-day age, is 1.0
for a mention posted at "now", is 0 at exactly 30 days, and never goes
below the floor 0.  (As stated the claim is false: `days` has whole-day
granularity, so two mentions whose ages differ by less than a day boundary
contribute equally — see the counterexample.) -/
theorem C4_recency_decay (now t1 t2 : ℤ) (m1 : SocialMention)
    (h1 : m1.posted_at = some t1)
    (hin : daysBetween now t1 < 30)
    (hfar : daysBetween now t1 < daysBetween now t2) :
    mentionViralScore now { m1 with posted_at := some t2 } < mentionViralScore now m1
    ∧ recencyContribution now (some now) = 1
    ∧ (∀ t, daysBetween now t = 30 → recencyContribution now (some t) = 0)
    ∧ (∀ t, 0 ≤ recencyContribution now (some t)) := by
  refine ⟨?_, ?_, ?_, fun t => recencyContribution_nonneg now (some t)⟩
  · have hd1 : ((daysBetween now t1 : ℤ) : ℝ) < 30 := by exact_mod_cast hin
    have hd12 : ((daysBetween now t1 : ℤ) : ℝ) < ((daysBetween now t2 : ℤ) : ℝ) := by
      exact_mod_cast hfar
    have hf1 : (0:ℝ) < 1 - ((daysBetween now t1 : ℤ) : ℝ) / 30 := by linarith
    have hrc : recencyContribution now (some t2) < recencyContribution now (some t1) := by
      rw [recencyContribution_some, recencyContribution_some]
      have hmax1 : max (0:ℝ) (1 - ((daysBetween now t1 : ℤ) : ℝ) / 30)
          = 1 - ((daysBetween now t1 : ℤ) : ℝ) / 30 := max_eq_right hf1.le
      have hmax2 : max (0:ℝ) (1 - ((daysBetween now t2 : ℤ) : ℝ) / 30)
          < 1 - ((daysBetween now t1 : ℤ) : ℝ) / 30 := by
        apply max_lt hf1
        linarith
      rw [hmax1]
      have hw : (0:ℝ) < 5 * VIRAL_WEIGHTS_recency := by norm_num [VIRAL_WEIGHTS_recency]
      nlinarith [hmax2, hw]
    unfold mentionViralScore
    have e1 : ({ m1 with posted_at := some t2 } : SocialMention).reddit_score
        = m1.reddit_score := rfl
    have e2 : ({ m1 with posted_at := some t2 } : SocialMention).reddit_num_comments
        = m1.reddit_num_comments := rfl
    have e3 : ({ m1 with posted_at := some t2 } : SocialMention).posted_at = some t2 := rfl
    rw [e1, e2, e3, h1]
    linarith [hrc]
  · rw [recencyContribution_some]
    unfold daysBetween
    rw [sub_self]
    norm_num [Int.zero_fdiv, VIRAL_WEIGHTS_recency, max_def]
  · intro t hd
    rw [recencyContribution_some, hd]
    norm_num [max_def]

/-- Concrete mention used by the C4 witness. -/
def c4mention : SocialMention :=
  { restaurant_name := "r", source_type := .reddit, source_url := "u",
    raw_text := "x", posted_at := some 0 }

/-- C4 witness: the amended statement applied at a concrete input (ages 0
days and 40 days). -/
theorem C4_witness :
    mentionViralScore 0 { c4mention with posted_at := some (-3456000) }
        < mentionViralScore 0 c4mention
    ∧ recencyContribution 0 (some 0) = 1
    ∧ (∀ t, daysBetween 0 t = 30 → recencyContribution 0 (some t) = 0)
    ∧ (∀ t, 0 ≤ recencyContribution 0 (some t)) :=
  C4_recency_decay 0 0 (-3456000) c4mention rfl (by decide) (by decide)

/-- Mention with no engagement used by the C4 counterexample. -/
def c4base : SocialMention :=
  { restaurant_name := "r", source_type := .reddit, source_url := "u",
    raw_text := "x" }

/-- C4 counterexample to the claim as stated: two mentions identical except
`posted_at`, both within the 30-day horizon, aged 5 days and 5 days + 1
hour — the farther one does NOT contribute a strictly smaller viral
component, because `timedelta.days` floors both ages to 5 whole days. -/
theorem C4_counterexample :
    ((0:ℤ) - (-435600) > 0 - (-432000))
    ∧ 0 ≤ daysBetween 0 (-432000) ∧ daysBetween 0 (-432000) < 30
    ∧ 0 ≤ daysBetween 0 (-435600) ∧ daysBetween 0 (-435600) < 30
    ∧ ¬ (mentionViralScore 0 { c4base with posted_at := some (-435600) }
          < mentionViralScore 0 { c4base with posted_at := some (-432000) }) := by
  refine ⟨by decide, by decide, by decide, by decide, by decide, ?_⟩
  have heq : mentionViralScore 0 { c4base with posted_at := some (-435600) }
      = mentionViralScore 0 { c4base with posted_at := some (-432000) } := by
    unfold mentionViralScore
    have d1 : daysBetween 0 (-435600) = 5 := by decide
    have d2 : daysBetween 0 (-432000) = 5 := by decide
    have r1 : recencyContribution 0 (some (-435600)) = recencyContribution 0 (some (-432000)) := by
      rw [recencyContribution_some, recencyContribution_some, d1, d2]
    have e1 : ({ c4base with posted_at := some (-435600) } : SocialMention).reddit_score
        = c4base.reddit_score := rfl
    have e2 : ({ c4base with posted_at := some (-435600) } : SocialMention).reddit_num_comments
        = c4base.reddit_num_comments := rfl
    have e3 : ({ c4base with posted_at := some (-435600) } : SocialMention).posted_at
        = some (-435600) := rfl
    have f1 : ({ c4base with posted_at := some (-432000) } : SocialMention).reddit_score
        = c4base.reddit_score := rfl
    have f2 : ({ c4base with posted_at := some (-432000) } : SocialMention).reddit_num_comments
        = c4base.reddit_num_comments := rfl
    have f3 : ({ c4base with posted_at := some (-432000) } : SocialMention).posted_at
        = some (-432000) := rfl
    rw [e1, e2, e3, f1, f2, f3, r1]
  rw [heq]
  exact lt_irrefl _

/-- C6 (corrected): the trending flag is set exactly when at least 2
mentions pass the code's recency filter AND the viral score exceeds 5, and
mentions with no `posted_at` never pass that filter; but the code's filter
is `(now - posted_at).days < 7`, which admits any future-dated mention as
well as mentions less than 7 whole days old — not only mentions "within
the last 7 days before now" (see the counterexample). -/
theorem C6_trending_rule (now : ℤ) (r : Restaurant) (ms : List SocialMention) :
    ((update_restaurant_scores now r ms).is_trending = true
      ↔ 2 ≤ (ms.filter (isRecentMention now)).length
          ∧ 5 < calculate_viral_score now ms)
    ∧ (∀ m : SocialMention, m.posted_at = none → isRecentMention now m = false) := by
  constructor
  · have hproj : (update_restaurant_scores now r ms).is_trending
        = (decide (2 ≤ (ms.filter (isRecentMention now)).length)
            && decide (5 < calculate_viral_score now ms)) := rfl
    rw [hproj, Bool.and_eq_true, decide_eq_true_iff, decide_eq_true_iff]
  · intro m hm
    unfold isRecentMention
    rw [hm]

/-- Restaurant record used by the C6 counterexample. -/
def c6restaurant : Restaurant := { name := "R" }

/-- First future-dated mention (1000 days after "now" = 0). -/
def c6mA : SocialMention :=
  { restaurant_name := "R", source_type := .reddit, source_url := "a",
    raw_text := "x", posted_at := some 86400000 }

/-- Second future-dated mention. -/
def c6mB : SocialMention :=
  { restaurant_name := "R", source_type := .reddit, source_url := "b",
    raw_text := "y", posted_at := some 86400000 }

/-- C6 counterexample to the claim as stated: with two mentions dated 1000
days in the FUTURE, the code sets the trending flag (their negative
whole-day age passes `days < 7`, and the unbounded recency factor drives
the viral score to the 10.0 cap), yet zero mentions lie within the last 7
days before "now". -/
theorem C6_counterexample :
    (update_restaurant_scores 0 c6restaurant [c6mA, c6mB]).is_trending = true
    ∧ ([c6mA, c6mB].filter (withinLast7Days 0)).length = 0 := by
  constructor
  · have hA : mentionViralScore 0 c6mA = 103 / 3 := by
      unfold mentionViralScore
      have p1 : c6mA.reddit_score = 0 := rfl
      have p2 : c6mA.reddit_num_comments = 0 := rfl
      have p3 : c6mA.posted_at = some 86400000 := rfl
      rw [p1, p2, p3, recencyContribution_some,
        show daysBetween 0 86400000 = -1000 from by decide]
      norm_num [VIRAL_WEIGHTS_recency, max_def]
    have hB : mentionViralScore 0 c6mB = 103 / 3 := by
      unfold mentionViralScore
      have p1 : c6mB.reddit_score = 0 := rfl
      have p2 : c6mB.reddit_num_comments = 0 := rfl
      have p3 : c6mB.posted_at = some 86400000 := rfl
      rw [p1, p2, p3, recencyContribution_some,
        show daysBetween 0 86400000 = -1000 from by decide]
      norm_num [VIRAL_WEIGHTS_recency, max_def]
    have hvts : viralTotalScore 0 [c6mA, c6mB] = 206 / 3 := by
      simp [viralTotalScore, hA, hB]
      norm_num
    have hviral : calculate_viral_score 0 [c6mA, c6mB] = 10 := by
      unfold calculate_viral_score
      rw [if_neg (by simp), hvts]
      have hlen2 : (([c6mA, c6mB] : List SocialMention).length : ℝ) = 2 := by norm_num
      rw [hlen2, show (206:ℝ) / 3 / 2 = 103 / 3 by norm_num]
      have hr : round2 ((103:ℝ) / 3) = 3433 / 100 := by
        unfold round2
        rw [show (103:ℝ) / 3 * 100 = 10300 / 3 by norm_num, round_eq,
          show (10300:ℝ) / 3 + 1 / 2 = 20603 / 6 by norm_num]
        have hfl : ⌊(20603:ℝ) / 6⌋ = 3433 := by
          apply Int.floor_eq_iff.mpr
          constructor <;> norm_num
        rw [hfl]
        norm_num
      rw [hr, min_eq_right (by norm_num)]
      norm_num
    have hproj : (update_restaurant_scores 0 c6restaurant [c6mA, c6mB]).is_trending
        = (decide (2 ≤ (([c6mA, c6mB] : List SocialMention).filter (isRecentMention 0)).length)
            && decide (5 < calculate_viral_score 0 [c6mA, c6mB])) := rfl
    rw [hproj, Bool.and_eq_true]
    refine ⟨by decide, decide_eq_true (by rw [hviral]; norm_num)⟩
  · decide

/-- C2 (confirmed): with all sentiment values in [-1, 1],
`calculate_sentiment_score` lies in [0, 10]; mentions with no sentiment
value are excluded from both the weighted numerator and the weight
denominator (filtering them out does not change the result); and whenever
no mention carries a sentiment value, including the empty list, the result
is exactly the neutral default 5.0. -/
theorem C2_sentiment_score_range (ms : List SocialMention)
    (h : ∀ m ∈ ms, ∀ s, m.sentiment_score = some s → -1 ≤ s ∧ s ≤ 1) :
    (0 ≤ calculate_sentiment_score ms ∧ calculate_sentiment_score ms ≤ 10)
    ∧ calculate_sentiment_score (ms.filter (fun m => m.sentiment_score.isSome))
        = calculate_sentiment_score ms
    ∧ ((∀ m ∈ ms, m.sentiment_score = none) → calculate_sentiment_score ms = 5) := by
  have hTnn := sentimentWeightTotal_nonneg ms
  refine ⟨⟨?_, ?_⟩, ?_, ?_⟩
  · unfold calculate_sentiment_score
    by_cases he : ms.isEmpty
    · rw [if_pos he]; norm_num
    · rw [if_neg he]
      by_cases hT : sentimentWeightTotal ms = 0
      · rw [if_pos hT]; norm_num
      · rw [if_neg hT]
        exact round2_nonneg (div_nonneg
          (sentimentWeightedSum_nonneg (fun m hm s hs => (h m hm s hs).1)) hTnn)
  · unfold calculate_sentiment_score
    by_cases he : ms.isEmpty
    · rw [if_pos he]; norm_num
    · rw [if_neg he]
      by_cases hT : sentimentWeightTotal ms = 0
      · rw [if_pos hT]; norm_num
      · rw [if_neg hT]
        have hTpos : 0 < sentimentWeightTotal ms := lt_of_le_of_ne hTnn (Ne.symm hT)
        have hW := sentimentWeightedSum_le (fun m hm s hs => (h m hm s hs).2)
        have havg : sentimentWeightedSum ms / sentimentWeightTotal ms ≤ 10 := by
          rw [div_le_iff₀ hTpos]; linarith
        have hm2 := round2_mono havg
        have h10 : round2 (10:ℝ) = 10 := by
          have h10i := round2_intCast 10
          simpa using h10i
        linarith
  · unfold calculate_sentiment_score
    by_cases hlf : (ms.filter (fun m => m.sentiment_score.isSome)).isEmpty
    · rw [if_pos hlf]
      have hfnil : ms.filter (fun m => m.sentiment_score.isSome) = [] := by
        simpa using hlf
      have hT0 : sentimentWeightTotal ms = 0 := by
        rw [← sentimentWeightTotal_filter ms, hfnil]
        simp [sentimentWeightTotal]
      by_cases he : ms.isEmpty
      · rw [if_pos he]
      · rw [if_neg he, if_pos hT0]
    · rw [if_neg hlf]
      have hmsne : ¬ ms.isEmpty = true := by
        intro hcon
        have hnil : ms = [] := by simpa using hcon
        subst hnil
        exact hlf rfl
      rw [if_neg hmsne, sentimentWeightTotal_filter, sentimentWeightedSum_filter]
  · intro hall
    have hT0 := sentimentWeightTotal_all_none hall
    unfold calculate_sentiment_score
    by_cases he : ms.isEmpty
    · rw [if_pos he]; norm_num
    · rw [if_neg he, if_pos hT0]; norm_num

/-- Scored mention used by the C2 witness. -/
noncomputable def c2m0 : SocialMention :=
  { restaurant_name := "r", source_type := .eater, source_url := "u0",
    raw_text := "x", sentiment_score := some (1/2) }

/-- Unscored mention used by the C2 witness. -/
def c2m1 : SocialMention :=
  { restaurant_name := "r", source_type := .reddit, source_url := "u1",
    raw_text := "y" }

/-- C2 witness: the range/filter/default statement applied to a concrete
two-mention list (one scored 0.5, one unscored). -/
theorem C2_witness :
    (0 ≤ calculate_sentiment_score [c2m0, c2m1]
      ∧ calculate_sentiment_score [c2m0, c2m1] ≤ 10)
    ∧ calculate_sentiment_score
        (([c2m0, c2m1] : List SocialMention).filter (fun m => m.sentiment_score.isSome))
        = calculate_sentiment_score [c2m0, c2m1]
    ∧ ((∀ m ∈ ([c2m0, c2m1] : List SocialMention), m.sentiment_score = none)
        → calculate_sentiment_score [c2m0, c2m1] = 5) := by
  apply C2_sentiment_score_range
  intro m hm s hs
  simp only [List.mem_cons, List.not_mem_nil, or_false] at hm
  rcases hm with rfl | rfl
  · rw [show c2m0.sentiment_score = some (1/2 : ℝ) from rfl] at hs
    have hval : (1/2 : ℝ) = s := by injection hs
    subst hval
    norm_num
  · rw [show c2m1.sentiment_score = (none : Option ℝ) from rfl] at hs
    exact absurd hs (by simp)

/-- C9 (corrected): for two mentions whose sentiments have opposite signs
(in EITHER arrangement — the higher-credibility source may carry the
positive or the negative sentiment) and whose source credibilities are
strictly ordered, the credibility-weighted average (before the final
2-decimal rounding that `calculate_sentiment_score` applies) is strictly
closer to the higher-credibility mention's rescaled value than the simple
unweighted mean of the two rescaled values.  (For the returned, rounded
value the strict inequality can collapse to equality when the gap is below
the 0.005 rounding resolution — see the counterexample.) -/
theorem C9_credibility_weighting (m1 m2 : SocialMention) (s1 s2 : ℝ)
    (h1 : m1.sentiment_score = some s1) (h2 : m2.sentiment_score = some s2)
    (hopp : s1 * s2 < 0)
    (hc : SOURCE_CREDIBILITY m2.source_type < SOURCE_CREDIBILITY m1.source_type) :
    |sentimentWeightedSum [m1, m2] / sentimentWeightTotal [m1, m2] - (s1 + 1) * 5|
      < |((s1 + 1) * 5 + (s2 + 1) * 5) / 2 - (s1 + 1) * 5| := by
  have hc1p := SOURCE_CREDIBILITY_pos m1.source_type
  have hc2p := SOURCE_CREDIBILITY_pos m2.source_type
  set c1 := SOURCE_CREDIBILITY m1.source_type with hc1
  set c2 := SOURCE_CREDIBILITY m2.source_type with hc2
  have hW : sentimentWeightedSum [m1, m2]
      = (s1 + 1) * 5 * c1 + (s2 + 1) * 5 * c2 := by
    simp [sentimentWeightedSum, sentimentContribution, h1, h2]
  have hT : sentimentWeightTotal [m1, m2] = c1 + c2 := by
    simp [sentimentWeightTotal, sentimentWeight, h1, h2]
  set n1 := (s1 + 1) * 5 with hn1
  set n2 := (s2 + 1) * 5 with hn2
  have hTpos : (0:ℝ) < c1 + c2 := by linarith
  rw [hW, hT]
  have hLval : (n1 * c1 + n2 * c2) / (c1 + c2) - n1 = (n2 - n1) * c2 / (c1 + c2) := by
    field_simp
    ring
  have hRval : (n1 + n2) / 2 - n1 = (n2 - n1) / 2 := by ring
  rw [hLval, hRval]
  have hne : n2 - n1 ≠ 0 := by
    rw [hn1, hn2]
    intro h
    have hss : s1 = s2 := by linarith
    rw [hss] at hopp
    nlinarith
  have habs : 0 < |n2 - n1| := abs_pos.mpr hne
  rw [abs_div, abs_mul, abs_of_pos hc2p, abs_of_pos hTpos, abs_div,
    abs_of_pos (show (0:ℝ) < 2 by norm_num)]
  rw [div_lt_div_iff₀ hTpos (by norm_num : (0:ℝ) < 2)]
  have key : 0 < (c1 - c2) * |n2 - n1| := mul_pos (sub_pos.mpr hc) habs
  nlinarith [key]

/-- High-credibility positive mention for the C9 witness. -/
noncomputable def c9w1 : SocialMention :=
  { restaurant_name := "r", source_type := .eater, source_url := "w1",
    raw_text := "x", sentiment_score := some (1/2) }

/-- Low-credibility negative mention for the C9 witness. -/
noncomputable def c9w2 : SocialMention :=
  { restaurant_name := "r", source_type := .reddit, source_url := "w2",
    raw_text := "y", sentiment_score := some (-(1/2)) }

/-- C9 witness: the amended statement applied at sentiments +0.5 (eater,
credibility 1.0) and -0.5 (reddit, credibility 0.7). -/
theorem C9_witness :
    |sentimentWeightedSum [c9w1, c9w2] / sentimentWeightTotal [c9w1, c9w2]
        - ((1/2 : ℝ) + 1) * 5|
      < |(((1/2 : ℝ) + 1) * 5 + ((-(1/2) : ℝ) + 1) * 5) / 2 - ((1/2 : ℝ) + 1) * 5| := by
  apply C9_credibility_weighting c9w1 c9w2 (1/2) (-(1/2)) rfl rfl (by norm_num)
  show SOURCE_CREDIBILITY SourceType.reddit < SOURCE_CREDIBILITY SourceType.eater
  norm_num [SOURCE_CREDIBILITY]

/-- Eater mention with sentiment +0.001 for the C9 counterexample. -/
noncomputable def c9xA : SocialMention :=
  { restaurant_name := "r", source_type := .eater, source_url := "xa",
    raw_text := "x", sentiment_score := some (1/1000) }

/-- BlogTO mention with sentiment -0.001 for the C9 counterexample. -/
noncomputable def c9xB : SocialMention :=
  { restaurant_name := "r", source_type := .blogto, source_url := "xb",
    raw_text := "y", sentiment_score := some (-(1/1000)) }

/-- C9 counterexample to the claim as stated about the returned value of
`calculate_sentiment_score`: with sentiments +-0.001 from eater
(credibility 1.0) and blogto (0.9), the returned 2-decimal-rounded score is
5.0, whose distance to the high-credibility rescaled value 5.005 equals
(not strictly beats) the unweighted mean's distance. -/
theorem C9_counterexample :
    ¬ (|calculate_sentiment_score [c9xA, c9xB] - ((1/1000 : ℝ) + 1) * 5|
        < |(((1/1000 : ℝ) + 1) * 5 + ((-(1/1000) : ℝ) + 1) * 5) / 2
            - ((1/1000 : ℝ) + 1) * 5|) := by
  have hs : calculate_sentiment_score [c9xA, c9xB] = 5 := by
    unfold calculate_sentiment_score
    rw [if_neg (by simp)]
    have hW : sentimentWeightedSum [c9xA, c9xB] = (19001:ℝ) / 2000 := by
      simp [sentimentWeightedSum, sentimentContribution, c9xA, c9xB, SOURCE_CREDIBILITY]
      norm_num
    have hT : sentimentWeightTotal [c9xA, c9xB] = (19:ℝ) / 10 := by
      simp [sentimentWeightTotal, sentimentWeight, c9xA, c9xB, SOURCE_CREDIBILITY]
      norm_num
    rw [if_neg (by rw [hT]; norm_num), hW, hT,
      show (19001:ℝ) / 2000 / ((19:ℝ) / 10) = 19001 / 3800 by norm_num]
    unfold round2
    rw [show (19001:ℝ) / 3800 * 100 = 19001 / 38 by norm_num, round_eq,
      show (19001:ℝ) / 38 + 1 / 2 = 9510 / 19 by norm_num]
    have hfl : ⌊(9510:ℝ) / 19⌋ = 500 := by
      apply Int.floor_eq_iff.mpr
      constructor <;> norm_num
    rw [hfl]
    norm_num
  rw [hs]
  intro hcon
  have e1 : |(5:ℝ) - ((1/1000 : ℝ) + 1) * 5| = 1 / 200 := by
    rw [show (5:ℝ) - ((1/1000 : ℝ) + 1) * 5 = -(1/200) by norm_num, abs_neg,
      abs_of_pos (by norm_num)]
  have e2 : |(((1/1000 : ℝ) + 1) * 5 + ((-(1/1000) : ℝ) + 1) * 5) / 2
      - ((1/1000 : ℝ) + 1) * 5| = 1 / 200 := by
    rw [show (((1/1000 : ℝ) + 1) * 5 + ((-(1/1000) : ℝ) + 1) * 5) / 2
        - ((1/1000 : ℝ) + 1) * 5 = -(1/200) by norm_num, abs_neg,
      abs_of_pos (by norm_num)]
  rw [e1, e2] at hcon
  exact lt_irrefl _ hcon

/-- C8 (corrected): the `coerce_list` validator maps None to the empty
list, parses a JSON-array-shaped string into the parsed list, and maps ANY
string that fails JSON parsing — including a plain comma-separated string —
to the empty list; it never comma-splits.  Non-string list values pass
through unchanged. -/
theorem C8_coerce_list (s : String) (hs : jsonLoads s = Option.none) :
    coerce_list .none = Json.arr []
    ∧ coerce_list (.str "[\"khao soi\", \"pad thai\"]")
        = Json.arr [Json.str "khao soi", Json.str "pad thai"]
    ∧ coerce_list (.str s) = Json.arr []
    ∧ (∀ xs : List String, coerce_list (.list xs) = Json.arr (xs.map Json.str)) := by
  refine ⟨rfl, rfl, ?_, fun xs => rfl⟩
  show (match jsonLoads s with
    | some v => v
    | Option.none => Json.arr []) = Json.arr []
  rw [hs]

/-- C8 witness: the amended statement applied at the non-JSON string
"khao soi, pad thai". -/
theorem C8_witness :
    coerce_list .none = Json.arr []
    ∧ coerce_list (.str "[\"khao soi\", \"pad thai\"]")
        = Json.arr [Json.str "khao soi", Json.str "pad thai"]
    ∧ coerce_list (.str "khao soi, pad thai") = Json.arr []
    ∧ (∀ xs : List String, coerce_list (.list xs) = Json.arr (xs.map Json.str)) :=
  C8_coerce_list "khao soi, pad thai" rfl

/-- C8 counterexample to the claim as stated: for the non-JSON string
"khao soi, pad thai" the validator returns the empty list, not the
comma-split-and-trimmed list the claim describes. -/
theorem C8_counterexample :
    coerce_list (.str "khao soi, pad thai") = Json.arr []
    ∧ commaSplitTrim "khao soi, pad thai" = ["khao soi", "pad thai"]
    ∧ coerce_list (.str "khao soi, pad thai")
        ≠ Json.arr ((commaSplitTrim "khao soi, pad thai").map Json.str) := by
  refine ⟨rfl, by decide, ?_⟩
  intro hcon
  have h0 : coerce_list (.str "khao soi, pad thai") = Json.arr [] := rfl
  rw [h0, show commaSplitTrim "khao soi, pad thai" = ["khao soi", "pad thai"]
    from by decide] at hcon
  simp at hcon

/-- Good content item 1 for the C7 batch (parseable int engagement). -/
def c7good1 : ContentItem :=
  { source_type := .reddit, source_url := "g1", raw_text := "t1",
    reddit_score := some (.int 10), reddit_num_comments := some (.int 2) }

/-- Bad content item for the C7 batch (reddit_score = "N/A"). -/
def c7bad : ContentItem :=
  { source_type := .reddit, source_url := "b", raw_text := "t2",
    reddit_score := some (.str "N/A") }

/-- Good content item 2 for the C7 batch (absent counters). -/
def c7good2 : ContentItem :=
  { source_type := .blogto, source_url := "g2", raw_text := "t3" }

/-- The C7 batch: good, bad, good, each extracting one restaurant. -/
def c7batch : List (ContentItem × List ExtractedInfo × Option SentimentInfo) :=
  [(c7good1, [{ name := "A" }], none),
   (c7bad, [{ name := "B" }], none),
   (c7good2, [{ name := "C" }], none)]

/-- C7 (confirmed): the numeric engagement validators map None to 0 and any
int()-parseable value to its integer; an unparseable value such as "N/A"
fails the mention's construction with a validation error naming the
offending field; and in the ingestion batch loop such a failure is caught
per content item, so sibling mentions in the same batch are still
processed (batch of good/bad/good yields the two good mentions plus one
recorded error). -/
theorem C7_mention_coercion (v : PyVal) (n : ℤ) (hv : pyInt v = some n) :
    coerce_int Option.none = some 0
    ∧ coerce_int (some v) = some n
    ∧ (∀ inp : MentionInput, inp.reddit_score = some (.str "N/A") →
        mkSocialMention inp = .error "reddit_score")
    ∧ (run_pipeline_step2 c7batch).2 = ["reddit_score"]
    ∧ ((run_pipeline_step2 c7batch).1.map (fun m => m.restaurant_name)) = ["A", "C"] := by
  refine ⟨rfl, hv, ?_, by decide, by decide⟩
  intro inp hinp
  unfold mkSocialMention
  rw [hinp, show coerce_int (some (.str "N/A")) = Option.none from by decide]

/-- C7 witness: the coercion contract applied at the parseable numeric
string "42". -/
theorem C7_witness :
    coerce_int Option.none = some 0
    ∧ coerce_int (some (.str "42")) = some 42
    ∧ (∀ inp : MentionInput, inp.reddit_score = some (.str "N/A") →
        mkSocialMention inp = .error "reddit_score")
    ∧ (run_pipeline_step2 c7batch).2 = ["reddit_score"]
    ∧ ((run_pipeline_step2 c7batch).1.map (fun m => m.restaurant_name)) = ["A", "C"] :=
  C7_mention_coercion (.str "42") 42 (by decide)

/-- C1 (corrected): appending one more mention with positive engagement
counters and positive sentiment never decreases the buzz score, PROVIDED
the new mention does not drag down the two averaged components: its
per-mention viral contribution must be at least the current average viral
contribution, and its rescaled sentiment must be at least the current
credibility-weighted sentiment average.  Without those two provisos the
claim is false — sentiment and viral scores are averages, so a weak (but
still positive-engagement, positive-sentiment) mention lowers them, and the
drop can outweigh the mention-count gain (see the counterexample). -/
theorem C1_buzz_monotonicity (now : ℤ) (ms : List SocialMention) (m : SocialMention)
    (g : Option ℝ) (s : ℝ)
    (hrs : 0 < m.reddit_score) (hrc : 0 < m.reddit_num_comments)
    (hsent : m.sentiment_score = some s) (hs : 0 < s)
    (hviral : viralTotalScore now ms ≤ ms.length * mentionViralScore now m)
    (hsw : sentimentWeightedSum ms ≤ (s + 1) * 5 * sentimentWeightTotal ms) :
    (calculate_all_scores now ms g).buzz_score
      ≤ (calculate_all_scores now (ms ++ [m]) g).buzz_score := by
  have hsmono := calculate_sentiment_append_le ms m s hsent hs hsw
  have hvmono := calculate_viral_append_le now ms m hrs.le hrc.le hviral
  have hpmono := calculate_pro_score_append ms m
  have hnmono : ms.length ≤ (ms ++ [m]).length := by simp
  have e1 : (calculate_all_scores now ms g).buzz_score
      = calculate_buzz_score (calculate_sentiment_score ms)
          (calculate_viral_score now ms) (calculate_pro_score ms) ms.length g := rfl
  have e2 : (calculate_all_scores now (ms ++ [m]) g).buzz_score
      = calculate_buzz_score (calculate_sentiment_score (ms ++ [m]))
          (calculate_viral_score now (ms ++ [m])) (calculate_pro_score (ms ++ [m]))
          (ms ++ [m]).length g := rfl
  rw [e1, e2]
  exact calculate_buzz_score_mono g hsmono hvmono hpmono hnmono

/-- Existing mention for the C1 witness (sentiment 0.5, no engagement). -/
noncomputable def c1base : SocialMention :=
  { restaurant_name := "r", source_type := .reddit, source_url := "w0",
    raw_text := "x", sentiment_score := some (1/2) }

/-- Appended mention for the C1 witness (positive counters, sentiment 0.9). -/
noncomputable def c1new : SocialMention :=
  { restaurant_name := "r", source_type := .reddit, source_url := "w1",
    raw_text := "y", reddit_score := 1, reddit_num_comments := 1,
    sentiment_score := some (9/10) }

/-- C1 witness: the amended statement applied at a concrete pair where the
appended mention beats both current averages. -/
theorem C1_witness :
    (calculate_all_scores 0 [c1base] none).buzz_score
      ≤ (calculate_all_scores 0 ([c1base] ++ [c1new]) none).buzz_score := by
  have hz : mentionViralScore 0 c1base = 0 := by
    unfold mentionViralScore
    rw [show c1base.reddit_score = 0 from rfl,
      show c1base.reddit_num_comments = 0 from rfl,
      show c1base.posted_at = none from rfl,
      show recencyContribution 0 none = (0:ℝ) from rfl]
    norm_num
  apply C1_buzz_monotonicity 0 [c1base] c1new none (9/10) (by decide) (by decide) rfl
    (by norm_num)
  · rw [show viralTotalScore 0 [c1base] = 0 by simp [viralTotalScore, hz],
      show (([c1base] : List SocialMention).length : ℝ) = 1 by simp, one_mul]
    exact mentionViralScore_nonneg 0 (by decide) (by decide)
  · have hW : sentimentWeightedSum [c1base] = 21/4 := by
      simp [sentimentWeightedSum, sentimentContribution, c1base, SOURCE_CREDIBILITY]
      norm_num
    have hT : sentimentWeightTotal [c1base] = 7/10 := by
      simp [sentimentWeightTotal, sentimentWeight, c1base, SOURCE_CREDIBILITY]
      norm_num
    rw [hW, hT]
    norm_num

/-- Existing high-sentiment mention for the C1 counterexample. -/
noncomputable def c1xA : SocialMention :=
  { restaurant_name := "r", source_type := .reddit, source_url := "xa",
    raw_text := "x", sentiment_score := some 1 }

/-- Appended weak-but-positive mention for the C1 counterexample
(reddit_score 1 > 0, comments 1 > 0, sentiment 0.02 > 0). -/
noncomputable def c1xB : SocialMention :=
  { restaurant_name := "r", source_type := .reddit, source_url := "xb",
    raw_text := "y", reddit_score := 1, reddit_num_comments := 1,
    sentiment_score := some (1/50) }

/-- C1 counterexample to the claim as stated: appending the mention c1xB —
which has positive engagement counters and positive sentiment — to the
single-mention list [c1xA] strictly DECREASES the buzz score (from about
8.7 down to about 7.7): the averaged sentiment component drops from 10 to
7.55, outweighing the gains in the viral and mention-count components. -/
theorem C1_counterexample :
    0 < c1xB.reddit_score ∧ 0 < c1xB.reddit_num_comments
    ∧ c1xB.sentiment_score = some (1/50) ∧ (0:ℝ) < 1/50
    ∧ (calculate_all_scores 0 ([c1xA] ++ [c1xB]) none).buzz_score
        < (calculate_all_scores 0 [c1xA] none).buzz_score := by
  have hL1 : (0.6931471803:ℝ) < Real.log 2 := Real.log_two_gt_d9
  have hL2 : Real.log 2 < 0.6931471808 := Real.log_two_lt_d9
  refine ⟨by decide, by decide, rfl, by norm_num, ?_⟩
  -- ===== old side: scores of [c1xA] =====
  have hsentA : calculate_sentiment_score [c1xA] = 10 := by
    unfold calculate_sentiment_score
    rw [if_neg (by simp)]
    have hW : sentimentWeightedSum [c1xA] = 7 := by
      simp [sentimentWeightedSum, sentimentContribution, c1xA, SOURCE_CREDIBILITY]
      norm_num
    have hT : sentimentWeightTotal [c1xA] = 7/10 := by
      simp [sentimentWeightTotal, sentimentWeight, c1xA, SOURCE_CREDIBILITY]
      norm_num
    rw [if_neg (by rw [hT]; norm_num), hW, hT,
      show (7:ℝ) / (7/10) = 10 by norm_num]
    have h10 := round2_intCast 10
    simpa using h10
  have hmzA : mentionViralScore 0 c1xA = 0 := by
    unfold mentionViralScore
    rw [show c1xA.reddit_score = 0 from rfl,
      show c1xA.reddit_num_comments = 0 from rfl,
      show c1xA.posted_at = none from rfl,
      show recencyContribution 0 none = (0:ℝ) from rfl]
    norm_num
  have hviralA : calculate_viral_score 0 [c1xA] = 0 := by
    unfold calculate_viral_score
    rw [if_neg (by simp),
      show viralTotalScore 0 [c1xA] = 0 by simp [viralTotalScore, hmzA],
      show (([c1xA] : List SocialMention).length : ℝ) = 1 by simp,
      show (0:ℝ) / 1 = 0 by norm_num, round2_zero]
    norm_num
  have hproA : calculate_pro_score [c1xA] = 0 := by
    simp only [calculate_pro_score]
    rw [if_pos (by decide)]
    norm_num
  have e_old : (calculate_all_scores 0 [c1xA] none).buzz_score
      = calculate_buzz_score 10 0 0 1 none := by
    have e0 : (calculate_all_scores 0 [c1xA] none).buzz_score
        = calculate_buzz_score (calculate_sentiment_score [c1xA])
            (calculate_viral_score 0 [c1xA]) (calculate_pro_score [c1xA])
            ([c1xA] : List SocialMention).length none := rfl
    rw [e0, hsentA, hviralA, hproA]
    rfl
  have hbuzz_old : (8.64:ℝ) ≤ (calculate_all_scores 0 [c1xA] none).buzz_score := by
    rw [e_old, calculate_buzz_score_none]
    have hlog1 : log1p ((1:ℕ):ℝ) = Real.log 2 := by
      unfold log1p
      norm_num
    have hmc : min (log1p ((1:ℕ):ℝ) * 2.5) 10 = Real.log 2 * 2.5 := by
      rw [hlog1]
      exact min_eq_left (by nlinarith)
    rw [hmc,
      show ((10:ℝ) * BUZZ_WEIGHTS_sentiment + 0 * BUZZ_WEIGHTS_viral
          + Real.log 2 * 2.5 * BUZZ_WEIGHTS_mentions + 0 * BUZZ_WEIGHTS_pro_review
          + 5.0 * BUZZ_WEIGHTS_google_rating) * 2 = 8 + Real.log 2 by
        simp only [BUZZ_WEIGHTS_sentiment, BUZZ_WEIGHTS_viral, BUZZ_WEIGHTS_mentions,
          BUZZ_WEIGHTS_pro_review, BUZZ_WEIGHTS_google_rating]
        norm_num
        ring]
    rw [min_eq_left (by nlinarith : (8 + Real.log 2) ≤ (20.0:ℝ))]
    have hlow := round1_ge_sub (8 + Real.log 2)
    nlinarith
  -- ===== new side: scores of [c1xA, c1xB] =====
  have hsentNew : calculate_sentiment_score [c1xA, c1xB] = 151/20 := by
    unfold calculate_sentiment_score
    rw [if_neg (by simp)]
    have hW : sentimentWeightedSum [c1xA, c1xB] = 1057/100 := by
      simp [sentimentWeightedSum, sentimentContribution, c1xA, c1xB, SOURCE_CREDIBILITY]
      norm_num
    have hT : sentimentWeightTotal [c1xA, c1xB] = 7/5 := by
      simp [sentimentWeightTotal, sentimentWeight, c1xA, c1xB, SOURCE_CREDIBILITY]
      norm_num
    rw [if_neg (by rw [hT]; norm_num), hW, hT,
      show (1057:ℝ)/100 / (7/5) = 151/20 by norm_num]
    unfold round2
    rw [show (151:ℝ)/20 * 100 = ((755:ℤ):ℝ) by norm_num, round_intCast]
    norm_num
  have hmB : mentionViralScore 0 c1xB = 7/20 * Real.log 2 + 1 := by
    unfold mentionViralScore
    rw [show c1xB.reddit_score = 1 from rfl,
      show c1xB.reddit_num_comments = 1 from rfl,
      show c1xB.posted_at = none from rfl,
      show recencyContribution 0 none = (0:ℝ) from rfl]
    rw [if_pos (by norm_num), if_pos (by norm_num),
      if_pos (⟨by norm_num, by norm_num⟩ : (1:ℤ) ≠ 0 ∧ (1:ℤ) ≠ 0)]
    rw [show log1p (((1:ℤ)):ℝ) = Real.log 2 by unfold log1p; norm_num]
    rw [show (max (1:ℤ) 1) = 1 from rfl]
    rw [show (((1:ℤ)):ℝ) / (((1:ℤ)):ℝ) * 10 = 10 by norm_num]
    have hdiv2 : Real.log 2 / 2 ≤ 5 := by
      rw [div_le_iff₀ (by norm_num : (0:ℝ) < 2)]
      nlinarith
    have hdiv15 : Real.log 2 / 1.5 ≤ 5 := by
      rw [div_le_iff₀ (by norm_num : (0:ℝ) < 1.5)]
      nlinarith
    rw [min_eq_left hdiv2, min_eq_left hdiv15,
      min_eq_right (by norm_num : (5:ℝ) ≤ 10)]
    simp only [VIRAL_WEIGHTS_reddit_score, VIRAL_WEIGHTS_reddit_comments,
      VIRAL_WEIGHTS_engagement_rate]
    norm_num
    ring
  have hvtsNew : viralTotalScore 0 [c1xA, c1xB] = 7/20 * Real.log 2 + 1 := by
    simp [viralTotalScore, hmzA, hmB]
  have hviralNew : calculate_viral_score 0 [c1xA, c1xB]
      ≤ (7/20 * Real.log 2 + 1) / 2 + 1/200 := by
    unfold calculate_viral_score
    rw [if_neg (by simp), hvtsNew,
      show ((([c1xA, c1xB] : List SocialMention)).length : ℝ) = 2 by simp]
    calc min (round2 ((7/20 * Real.log 2 + 1) / 2)) 10.0
        ≤ round2 ((7/20 * Real.log 2 + 1) / 2) := min_le_left _ _
      _ ≤ (7/20 * Real.log 2 + 1) / 2 + 1/200 := round2_le_add _
  have hproNew : calculate_pro_score [c1xA, c1xB] = 0 := by
    simp only [calculate_pro_score]
    rw [if_pos (by decide)]
    norm_num
  have hmcNew : min (log1p ((2:ℕ):ℝ) * 2.5) 10 ≤ Real.log 2 * 5 := by
    have hlog2 : log1p ((2:ℕ):ℝ) = Real.log 3 := by
      unfold log1p
      norm_num
    have h34 : Real.log 3 ≤ Real.log 4 :=
      Real.log_le_log (by norm_num) (by norm_num)
    have h4 : Real.log 4 = 2 * Real.log 2 := by
      rw [show (4:ℝ) = 2 ^ 2 by norm_num, Real.log_pow]
      push_cast
      ring
    calc min (log1p ((2:ℕ):ℝ) * 2.5) 10 ≤ log1p ((2:ℕ):ℝ) * 2.5 := min_le_left _ _
      _ = Real.log 3 * 2.5 := by rw [hlog2]
      _ ≤ Real.log 4 * 2.5 := by nlinarith
      _ = Real.log 2 * 5 := by rw [h4]; ring
  have e_new : (calculate_all_scores 0 ([c1xA] ++ [c1xB]) none).buzz_score
      = calculate_buzz_score (151/20) (calculate_viral_score 0 [c1xA, c1xB]) 0 2 none := by
    have e0 : (calculate_all_scores 0 ([c1xA] ++ [c1xB]) none).buzz_score
        = calculate_buzz_score (calculate_sentiment_score [c1xA, c1xB])
            (calculate_viral_score 0 [c1xA, c1xB]) (calculate_pro_score [c1xA, c1xB])
            (([c1xA, c1xB] : List SocialMention)).length none := rfl
    rw [e0, hsentNew, hproNew]
    rfl
  have hbuzz_new : (calculate_all_scores 0 ([c1xA] ++ [c1xB]) none).buzz_score
      ≤ (8.04:ℝ) := by
    rw [e_new, calculate_buzz_score_none]
    have hstep : round1 (min ((151/20 * BUZZ_WEIGHTS_sentiment
          + calculate_viral_score 0 [c1xA, c1xB] * BUZZ_WEIGHTS_viral
          + min (log1p ((2:ℕ):ℝ) * 2.5) 10 * BUZZ_WEIGHTS_mentions
          + 0 * BUZZ_WEIGHTS_pro_review
          + 5.0 * BUZZ_WEIGHTS_google_rating) * 2) 20.0)
        ≤ (151/20 * BUZZ_WEIGHTS_sentiment
          + calculate_viral_score 0 [c1xA, c1xB] * BUZZ_WEIGHTS_viral
          + min (log1p ((2:ℕ):ℝ) * 2.5) 10 * BUZZ_WEIGHTS_mentions
          + 0 * BUZZ_WEIGHTS_pro_review
          + 5.0 * BUZZ_WEIGHTS_google_rating) * 2 + 1/20 := by
      calc round1 (min ((151/20 * BUZZ_WEIGHTS_sentiment
            + calculate_viral_score 0 [c1xA, c1xB] * BUZZ_WEIGHTS_viral
            + min (log1p ((2:ℕ):ℝ) * 2.5) 10 * BUZZ_WEIGHTS_mentions
            + 0 * BUZZ_WEIGHTS_pro_review
            + 5.0 * BUZZ_WEIGHTS_google_rating) * 2) 20.0)
          ≤ min ((151/20 * BUZZ_WEIGHTS_sentiment
            + calculate_viral_score 0 [c1xA, c1xB] * BUZZ_WEIGHTS_viral
            + min (log1p ((2:ℕ):ℝ) * 2.5) 10 * BUZZ_WEIGHTS_mentions
            + 0 * BUZZ_WEIGHTS_pro_review
            + 5.0 * BUZZ_WEIGHTS_google_rating) * 2) 20.0 + 1/20 := round1_le_add _
        _ ≤ (151/20 * BUZZ_WEIGHTS_sentiment
            + calculate_viral_score 0 [c1xA, c1xB] * BUZZ_WEIGHTS_viral
            + min (log1p ((2:ℕ):ℝ) * 2.5) 10 * BUZZ_WEIGHTS_mentions
            + 0 * BUZZ_WEIGHTS_pro_review
            + 5.0 * BUZZ_WEIGHTS_google_rating) * 2 + 1/20 := by
          have hm20 := min_le_left ((151/20 * BUZZ_WEIGHTS_sentiment
            + calculate_viral_score 0 [c1xA, c1xB] * BUZZ_WEIGHTS_viral
            + min (log1p ((2:ℕ):ℝ) * 2.5) 10 * BUZZ_WEIGHTS_mentions
            + 0 * BUZZ_WEIGHTS_pro_review
            + 5.0 * BUZZ_WEIGHTS_google_rating) * 2) 20.0
          linarith
    refine le_trans hstep ?_
    simp only [BUZZ_WEIGHTS_sentiment, BUZZ_WEIGHTS_viral, BUZZ_WEIGHTS_mentions,
      BUZZ_WEIGHTS_pro_review, BUZZ_WEIGHTS_google_rating]
    nlinarith [hviralNew, hmcNew]
  linarith

end BellyBuzz
